import Mathlib

/-!
# Shallow embedding of the NPS visitor-analytics query layer

This file embeds the aggregate query endpoints of `backend/main.py`
(data model from `backend/models.py`) and proves the testable properties
of the specification against them.

Modelling conventions:
* Python strings are modelled as `List Char`; `str.upper()` / `str.lower()`
  are ASCII case maps (all identifiers and names in the store are ASCII).
* SQL rows are Lean structures; the store is three lists (the three tables).
* Python/SQL integers are `ℤ`.  Per the data model ("all numeric fields are
  non-negative integers; absence is represented as zero after load"), the
  nullable numeric columns of `monthly_visit` are embedded as plain `ℤ`
  (so `int(x or 0)` and `COALESCE(x, 0)` act on non-null values).
* Floating-point intermediate values (`sum/len`, `AVG`, percentage ratios)
  are embedded as exact rationals `ℚ`; Python `round` (banker's rounding,
  half to even) is `pyRound`, and `round(sqrt x)` is computed exactly by
  `pyRoundSqrt`.
* SQL `SELECT ... JOIN ... WHERE ... GROUP BY ... HAVING ... ORDER BY ...
  LIMIT` is embedded deterministically: joins are list products in store
  order, `GROUP BY` groups by key in order of first appearance, `ORDER BY`
  is an insertion sort (tie order is unspecified in SQL and no theorem
  depends on it), `LIMIT n` takes a prefix (negative `n` means unlimited,
  as in SQLite).
* A FastAPI handler that can `raise HTTPException` is a function into
  `Except HTTPError _`; a handler with no raise is a plain function.
-/

set_option synthInstance.maxSize 1000

namespace NPS

/-- Python strings, modelled as lists of characters. -/
abbrev Str := List Char

/-- Python `str.upper()` / the canonical uppercase form of identifiers
(ASCII case map, matching the stored identifiers). -/
def upper (s : Str) : Str := s.map Char.toUpper

/-- Python `str.lower()` / SQL lowercase folding (ASCII case map). -/
def lower (s : Str) : Str := s.map Char.toLower

/-- Does `q` occur as a prefix of `s`? -/
def strStartsWith : Str → Str → Bool
  | [], _ => true
  | _ :: _, [] => false
  | c :: q, d :: s => c == d && strStartsWith q s

/-- Does `q` occur as a contiguous substring of `s`? -/
def strContains (q : Str) : Str → Bool
  | [] => strStartsWith q []
  | c :: s => strStartsWith q (c :: s) || strContains q s

/-- Case-insensitive substring test: SQL `name ILIKE '%q%'` and Python
`q.lower() in name.lower()` are both embedded by this function. -/
def containsCI (name q : Str) : Bool := strContains (lower q) (lower name)

/-- Python `round` on an exact rational: round half to even. -/
def pyRound (q : ℚ) : ℤ :=
  let f : ℤ := ⌊q⌋
  let r : ℚ := q - f
  if r < 1/2 then f
  else if 1/2 < r then f + 1
  else if f % 2 = 0 then f else f + 1

/-- Binary search for the integer square root: maintains `lo² ≤ n < hi²`. -/
def isqrtGo : ℕ → ℕ → ℕ → ℕ → ℕ
  | 0, lo, _, _ => lo
  | fuel + 1, lo, hi, n =>
    if hi ≤ lo + 1 then lo
    else if (lo + hi) / 2 * ((lo + hi) / 2) ≤ n then isqrtGo fuel ((lo + hi) / 2) hi n
    else isqrtGo fuel lo ((lo + hi) / 2) n

/-- Integer square root, as a fuel-driven binary search (so that it evaluates by kernel
reduction); `isqrt_correct` below pins down its value. -/
def isqrt (n : ℕ) : ℕ := isqrtGo (n + 2) 0 (n + 1) n

/-- Python `round(sqrt x)` for `x ≥ 0`, computed exactly on rationals.
For `x = num/den` (lowest terms), `√x + 1/2 = (2·√(num·den) + den) / (2·den)`,
so `⌊√x + 1/2⌋ = (⌊√(4·num·den)⌋ + den) / (2·den)`, which is round-half-up of
`√x`; the correction term detects the exact-tie case `√x = k − 1/2`
(i.e. `4·num·den = ((2k−1)·den)²`) and moves an odd `k` down to the even
`k − 1`, matching Python's round-half-to-even. -/
def pyRoundSqrt (x : ℚ) : ℤ :=
  let N : ℕ := x.num.toNat * x.den
  let k : ℕ := (isqrt (4 * N) + x.den) / (2 * x.den)
  if 4 * N = ((2 * k - 1) * x.den) ^ 2 ∧ k % 2 = 1 then (k : ℤ) - 1 else (k : ℤ)

/-- The `models.Region` row. -/
structure Region where
  region_id : Str
  region_name : Str
  description : Option Str := none
deriving DecidableEq

/-- The `models.Park` row. -/
structure Park where
  park_code : Str
  park_name : Str
  state : Str
  designation : Str
  region_id : Option Str := none
  latitude : Option ℚ := none
  longitude : Option ℚ := none
  description : Option Str := none
  website : Option Str := none
  boundary : Option Str := none
deriving DecidableEq

/-- The `models.MonthlyVisit` row; the nullable numeric columns are embedded as `ℤ`
(the data model stores absence as zero after load). -/
structure MonthlyVisit where
  park_code : Str
  year : ℤ
  month : ℤ
  recreation_visits : ℤ := 0
  non_recreation_visits : ℤ := 0
  total_visits : ℤ := 0
  concessioner_lodging : ℤ := 0
  concessioner_camping : ℤ := 0
  tent_campers : ℤ := 0
  rv_campers : ℤ := 0
  backcountry : ℤ := 0
  nonrecreation_overnight_stays : ℤ := 0
  miscellaneous_overnight_stays : ℤ := 0
deriving DecidableEq

/-- The relational store: the three tables. -/
structure Store where
  regions : List Region
  parks : List Park
  visits : List MonthlyVisit
deriving DecidableEq

/-- FastAPI `HTTPException(status_code, detail)`. -/
structure HTTPError where
  status : ℕ
  detail : String
deriving DecidableEq

/-- A 404 NotFound error. -/
def notFound (msg : String) : HTTPError := ⟨404, msg⟩

/-- A 400 BadRequest error. -/
def badRequest (msg : String) : HTTPError := ⟨400, msg⟩

/-! ## Deterministic embedding of SQL `ORDER BY`, `GROUP BY`, `LIMIT` -/

/-- Insert `a` into `l` before the first element `b` with `le a b`. -/
def orderedInsertB (le : α → α → Bool) (a : α) : List α → List α
  | [] => [a]
  | b :: l => if le a b then a :: b :: l else b :: orderedInsertB le a l

/-- Insertion sort with a boolean comparator (the deterministic model of
SQL `ORDER BY` and Python `list.sort`; tie order is unspecified there and
no theorem below depends on it). -/
def insertionSortB (le : α → α → Bool) : List α → List α
  | [] => []
  | a :: l => orderedInsertB le a (insertionSortB le l)

/-- SQL `ORDER BY key DESC` (stable input order for ties is not relied on). -/
def sortByDesc {β : Type} [LinearOrder β] (key : α → β) (l : List α) : List α :=
  insertionSortB (fun a b => decide (key b ≤ key a)) l

/-- SQL `ORDER BY key ASC`. -/
def sortByAsc {β : Type} [LinearOrder β] (key : α → β) (l : List α) : List α :=
  insertionSortB (fun a b => decide (key a ≤ key b)) l

/-- First occurrences of the keys, in input order (the deterministic model of
the key order produced by SQL `GROUP BY`). -/
def keysDedup [DecidableEq κ] : List κ → List κ
  | [] => []
  | k :: ks => k :: (keysDedup ks).filter (fun x => x ≠ k)

/-- SQL `GROUP BY key`: one group per key (in order of first appearance),
holding the rows with that key. -/
def sqlGroupBy [DecidableEq κ] (key : α → κ) (rows : List α) : List (κ × List α) :=
  (keysDedup (rows.map key)).map (fun k => (k, rows.filter (fun r => key r = k)))

/-- SQL `LIMIT n` with SQLite semantics: a negative limit means no limit. -/
def sqlLimit (n : ℤ) (l : List α) : List α :=
  if n < 0 then l else l.take n.toNat

/-- Python list slicing `l[:n]`: a prefix for `n ≥ 0`, and all but the last
`-n` elements for negative `n`. -/
def pySlice (n : ℤ) (l : List α) : List α :=
  if 0 ≤ n then l.take n.toNat else l.take (l.length - (-n).toNat)

/-! ## Joins and response models (`backend/main.py`) -/

/-- One row of `monthly_visit JOIN park ON park.park_code =
monthly_visit.park_code` (visit-major order), used by Q5's first pass and by
Q9's annual subquery. -/
def vpJoin (s : Store) : List (MonthlyVisit × Park) :=
  s.visits.flatMap (fun v =>
    (s.parks.filter (fun p => p.park_code = v.park_code)).map (fun p => (v, p)))

/-- The region row that `JOIN region ON region.region_id = park.region_id`
(outer) attaches to a park: the first region with a matching id, if any
(`region_id` is the primary key of `region`, so at most one matches in a
well-formed store). -/
def regionOf (s : Store) (p : Park) : Option Region :=
  s.regions.find? (fun r => p.region_id = some r.region_id)

/-- One row of `park JOIN monthly_visit ON monthly_visit.park_code =
park.park_code LEFT OUTER JOIN region ON region.region_id = park.region_id`. -/
structure PMRRow where
  park : Park
  region : Option Region
  visit : MonthlyVisit
deriving DecidableEq

/-- The three-table join used by most endpoints, in store order. -/
def joinPMR (s : Store) : List PMRRow :=
  s.parks.flatMap (fun p =>
    (s.visits.filter (fun v => v.park_code = p.park_code)).map
      (fun v => ⟨p, regionOf s p, v⟩))

/-- Response model `MonthlyThresholdOut`. -/
structure MonthlyThresholdOut where
  month : ℤ
  total_visits : ℤ
  above_threshold : Bool
deriving DecidableEq

/-- Response model `TopParkOut`. -/
structure TopParkOut where
  rank : ℤ
  park_code : Str
  park_name : Str
  year : ℤ
  annual_total_visits : ℤ
deriving DecidableEq

/-- Response model `AnnualParkVisitsOut`. -/
structure AnnualParkVisitsOut where
  park_code : Str
  park_name : Str
  region_id : Option Str := none
  region_name : Option Str := none
  year : ℤ
  annual_total_visits : ℤ
  state : Option Str := none
  latitude : Option ℚ := none
  longitude : Option ℚ := none
deriving DecidableEq

/-- Response model `ParkAboveAverageOut`. -/
structure ParkAboveAverageOut where
  park_code : Str
  park_name : Str
  region_id : Option Str := none
  region_name : Option Str := none
  year : ℤ
  annual_total_visits : ℤ
  system_average_visits : ℤ
  difference_from_average : ℤ
  percent_above_average : ℤ
deriving DecidableEq

/-- Response model `RegionAnnualVisitsOut`. -/
structure RegionAnnualVisitsOut where
  region_id : Str
  region_name : Str
  year : ℤ
  annual_total_visits : ℤ
  rank : ℤ
deriving DecidableEq

/-- Response model `AvgMonthlyVisitsOut`. -/
structure AvgMonthlyVisitsOut where
  park_code : Str
  park_name : Str
  region_id : Option Str := none
  region_name : Option Str := none
  start_year : ℤ
  end_year : ℤ
  avg_monthly_visits : ℤ
deriving DecidableEq

/-- Response model `MonthToMonthChangeOut`. -/
structure MonthToMonthChangeOut where
  month : ℤ
  total_visits : ℤ
  change_from_previous : Option ℤ
deriving DecidableEq

/-- Response model `GrowthOut`. -/
structure GrowthOut where
  park_code : Str
  park_name : Str
  region_id : Str
  region_name : Str
  start_year : ℤ
  end_year : ℤ
  start_total : ℤ
  end_total : ℤ
  growth_percent : ℤ
deriving DecidableEq

/-- Response model `VariabilityOut`. -/
structure VariabilityOut where
  park_code : Str
  park_name : Str
  region_id : Option Str := none
  region_name : Option Str := none
  year : ℤ
  avg_monthly_visits : ℤ
  std_dev_monthly_visits : ℤ
  months_with_data : ℤ
deriving DecidableEq

/-- Response model `MetricParkOut`. -/
structure MetricParkOut where
  park_code : Str
  park_name : Str
  region_id : Option Str := none
  region_name : Option Str := none
  year : ℤ
  metric_total : ℤ
deriving DecidableEq

/-- Response model `ParkDetailOut`. -/
structure ParkDetailOut where
  park_code : Str
  park_name : Str
  state : Str
  designation : Str
  region_id : Option Str := none
  region_name : Option Str := none
  latitude : Option ℚ := none
  longitude : Option ℚ := none
  description : Option Str := none
  website : Option Str := none
  boundary : Option Str := none
deriving DecidableEq

/-! ## Q1: `park_monthly_visits_with_threshold` -/

/-- Endpoint `GET /parks/{park_code}/monthly-visits`: each stored month of the
park/year in ascending month order with an `above_threshold` flag;
404 when no row matches. -/
def park_monthly_visits_with_threshold (s : Store) (park_code : Str) (year : ℤ)
    (threshold : ℤ := 0) : Except HTTPError (List MonthlyThresholdOut) :=
  let pc := upper park_code
  let rows := sortByAsc (fun v : MonthlyVisit => v.month)
    (s.visits.filter (fun v => v.park_code = pc ∧ v.year = year))
  if rows.isEmpty then .error (notFound "No visits for that park/year")
  else .ok (rows.map (fun v =>
    { month := v.month
      total_visits := v.total_visits
      above_threshold := decide (v.total_visits ≥ threshold) }))

/-! ## Q2: `annual_visits_by_park` -/

/-- The `GROUP BY` key of Q2 (all selected non-aggregated columns). -/
abbrev Q2Key := Str × Str × Str × Option ℚ × Option ℚ × Option Str × Option Str × ℤ

/-- Endpoint `GET /annual-visits/parks`: annual total visits per park for a year,
with optional region / exact-park / partial-name / minimum-total filters,
ordered by descending annual total and capped at `limit`.  The handler has
no `raise`: an empty result is returned as an empty list. -/
def annual_visits_by_park (s : Store) (year : ℤ) (region_id : Option Str := none)
    (park_code : Option Str := none) (query : Option Str := none)
    (min_total : Option ℤ := none) (limit : ℤ := 100) : List AnnualParkVisitsOut :=
  let region_id := region_id.map upper
  let park_code := park_code.map upper
  let rows0 := (joinPMR s).filter (fun row => row.visit.year = year)
  let rows1 := match region_id with
    | some rid => rows0.filter (fun row => row.region.any (fun r => r.region_id = rid))
    | none => rows0
  let rows2 := match park_code with
    | some pc => rows1.filter (fun row => row.park.park_code = pc)
    | none => match query with
      | some q => rows1.filter (fun row => containsCI row.park.park_name q)
      | none => rows1
  let groups := sqlGroupBy (fun row : PMRRow =>
    ((row.park.park_code, row.park.park_name, row.park.state,
      row.park.latitude, row.park.longitude,
      row.region.map (fun r => r.region_id), row.region.map (fun r => r.region_name),
      row.visit.year) : Q2Key)) rows2
  let aggs := groups.map (fun kg => (kg.1, (kg.2.map (fun row => row.visit.total_visits)).sum))
  let aggs2 := match min_total with
    | some mt => aggs.filter (fun kt => kt.2 ≥ mt)
    | none => aggs
  let limited := sqlLimit limit (sortByDesc (fun kt => kt.2) aggs2)
  limited.map (fun kt =>
    { park_code := kt.1.1, park_name := kt.1.2.1, state := some kt.1.2.2.1
      latitude := kt.1.2.2.2.1, longitude := kt.1.2.2.2.2.1
      region_id := kt.1.2.2.2.2.2.1, region_name := kt.1.2.2.2.2.2.2.1
      year := kt.1.2.2.2.2.2.2.2, annual_total_visits := kt.2 })

/-! ## Q3: `average_monthly_visits_by_park` -/

/-- The `GROUP BY` key of Q3/Q4. -/
abbrev Q3Key := Str × Str × Option Str × Option Str

/-- Endpoint `GET /visits/parks/average-monthly`: per-park average of `total_visits`
over all monthly rows with year in `[start_year, end_year]`, rounded,
descending; `start_year > end_year` is a 400 before any query. -/
def average_monthly_visits_by_park (s : Store) (start_year end_year : ℤ)
    (region_id : Option Str := none) (park_code : Option Str := none)
    (query : Option Str := none) (limit : ℤ := 100) :
    Except HTTPError (List AvgMonthlyVisitsOut) :=
  if start_year > end_year then .error (badRequest "start_year must be <= end_year")
  else
    let region_id := region_id.map upper
    let park_code := park_code.map upper
    let rows0 := (joinPMR s).filter (fun row =>
      start_year ≤ row.visit.year ∧ row.visit.year ≤ end_year)
    let rows1 := match region_id with
      | some rid => rows0.filter (fun row => row.region.any (fun r => r.region_id = rid))
      | none => rows0
    let rows2 := match park_code with
      | some pc => rows1.filter (fun row => row.park.park_code = pc)
      | none => match query with
        | some q => rows1.filter (fun row => containsCI row.park.park_name q)
        | none => rows1
    let groups := sqlGroupBy (fun row : PMRRow =>
      ((row.park.park_code, row.park.park_name,
        row.region.map (fun r => r.region_id), row.region.map (fun r => r.region_name)) : Q3Key))
      rows2
    let aggs := groups.map (fun kg =>
      (kg.1, ((kg.2.map (fun row => row.visit.total_visits)).sum : ℚ) / kg.2.length))
    let limited := sqlLimit limit (sortByDesc (fun ka => ka.2) aggs)
    .ok (limited.map (fun ka =>
      { park_code := ka.1.1, park_name := ka.1.2.1
        region_id := ka.1.2.2.1, region_name := ka.1.2.2.2
        start_year := start_year, end_year := end_year
        avg_monthly_visits := pyRound ka.2 }))

/-! ## Q4: `peak_season_above_threshold` -/

/-- Endpoint `GET /visits/peak-season/above-threshold`: per-park average of
`total_visits` over months 6–8 of the year, kept when the average is at
least `threshold`, descending. -/
def peak_season_above_threshold (s : Store) (year : ℤ) (threshold : ℤ)
    (region_id : Option Str := none) : List AvgMonthlyVisitsOut :=
  let region_id := region_id.map upper
  let rows0 := (joinPMR s).filter (fun row =>
    row.visit.year = year ∧ (row.visit.month = 6 ∨ row.visit.month = 7 ∨ row.visit.month = 8))
  let rows1 := match region_id with
    | some rid => rows0.filter (fun row => row.region.any (fun r => r.region_id = rid))
    | none => rows0
  let groups := sqlGroupBy (fun row : PMRRow =>
    ((row.park.park_code, row.park.park_name,
      row.region.map (fun r => r.region_id), row.region.map (fun r => r.region_name)) : Q3Key))
    rows1
  let aggs := groups.map (fun kg =>
    (kg.1, ((kg.2.map (fun row => row.visit.total_visits)).sum : ℚ) / kg.2.length))
  let aggs2 := aggs.filter (fun ka => ka.2 ≥ (threshold : ℚ))
  let sorted := sortByDesc (fun ka => ka.2) aggs2
  sorted.map (fun ka =>
    { park_code := ka.1.1, park_name := ka.1.2.1
      region_id := ka.1.2.2.1, region_name := ka.1.2.2.2
      start_year := year, end_year := year
      avg_monthly_visits := pyRound ka.2 })

/-! ## Q5: `parks_above_system_average` -/

/-- The `GROUP BY` key of Q5/Q10/Q11. -/
abbrev Q5Key := Str × Str × Option Str × Option Str × ℤ

/-- Endpoint `GET /visits/parks/above-system-average`: pass 1 computes the per-park
annual totals of the scope and their (rounded) unweighted mean; pass 2
returns the parks whose annual total exceeds that rounded mean, with
context fields, descending.  404 when pass 1 finds no rows. -/
def parks_above_system_average (s : Store) (year : ℤ) (region_id : Option Str := none)
    (park_code : Option Str := none) (query : Option Str := none) :
    Except HTTPError (List ParkAboveAverageOut) :=
  let region_id := region_id.map upper
  let vp := vpJoin s
  let vp1 := vp.filter (fun x => x.1.year = year)
  let vp2 := match region_id with
    | some rid => vp1.filter (fun x => x.2.region_id = some rid)
    | none => vp1
  let annual_totals : List ℤ :=
    (sqlGroupBy (fun x : MonthlyVisit × Park => x.1.park_code) vp2).map
      (fun kg => (kg.2.map (fun x => x.1.total_visits)).sum)
  if annual_totals.isEmpty then .error (notFound "No data for that year/filters")
  else
    let overall_avg : ℤ := pyRound ((annual_totals.sum : ℚ) / annual_totals.length)
    let rows0 := (joinPMR s).filter (fun row => row.visit.year = year)
    let rows1 := match region_id with
      | some rid => rows0.filter (fun row => row.region.any (fun r => r.region_id = rid))
      | none => rows0
    let rows2 := match park_code with
      | some pc => rows1.filter (fun row => row.park.park_code = upper pc)
      | none => match query with
        | some q => rows1.filter (fun row => containsCI row.park.park_name q)
        | none => rows1
    let groups := sqlGroupBy (fun row : PMRRow =>
      ((row.park.park_code, row.park.park_name,
        row.region.map (fun r => r.region_id), row.region.map (fun r => r.region_name),
        row.visit.year) : Q5Key)) rows2
    let aggs := (groups.map (fun kg =>
      (kg.1, (kg.2.map (fun row => row.visit.total_visits)).sum))).filter
      (fun kt => kt.2 > overall_avg)
    let sorted := sortByDesc (fun kt : Q5Key × ℤ => kt.2) aggs
    .ok (sorted.map (fun kt =>
      { park_code := kt.1.1, park_name := kt.1.2.1
        region_id := kt.1.2.2.1, region_name := kt.1.2.2.2.1
        year := kt.1.2.2.2.2
        annual_total_visits := kt.2
        system_average_visits := overall_avg
        difference_from_average := kt.2 - overall_avg
        percent_above_average :=
          if overall_avg > 0 then pyRound ((((kt.2 - overall_avg : ℤ) : ℚ) / overall_avg) * 100)
          else 0 }))

/-! ## Q6: `top_parks_by_year` -/

/-- One aggregated row of Q6's ranking statement. -/
structure RankedRow where
  park_code : Str
  park_name : Str
  year : ℤ
  annual_total : ℤ
deriving DecidableEq

/-- Q6's ranking statement: all parks of the scope (global, or one region via
`Park.region_id`) with their annual totals for the year, in descending order.
The partial-name filter and the limit are applied AFTER this list is built. -/
def rankedScope (s : Store) (year : ℤ) (region_id : Option Str) : List RankedRow :=
  let pv := s.parks.flatMap (fun p =>
    (s.visits.filter (fun v => v.park_code = p.park_code)).map (fun v => (p, v)))
  let pv1 := pv.filter (fun x => x.2.year = year)
  let pv2 := match region_id with
    | some rid => pv1.filter (fun x => x.1.region_id = some rid)
    | none => pv1
  let groups := sqlGroupBy
    (fun x : Park × MonthlyVisit => (x.1.park_code, x.1.park_name, x.2.year)) pv2
  sortByDesc (fun row : RankedRow => row.annual_total)
    (groups.map (fun kg =>
      ⟨kg.1.1, kg.1.2.1, kg.1.2.2, (kg.2.map (fun x => x.2.total_visits)).sum⟩))

/-- Endpoint `GET /annual-visits/top`: build the full ranked scope, then apply any
partial-name filter, then truncate to `limit`; each reported rank is the
1-based position (of the first row with that park code) in the FULL ranked
scope, or 0 if the code is absent from it. -/
def top_parks_by_year (s : Store) (year : ℤ) (limit : ℤ := 10)
    (region_id : Option Str := none) (query : Option Str := none) : List TopParkOut :=
  let region_id := region_id.map upper
  let all_ranked := rankedScope s year region_id
  let filtered := match query with
    | some q => all_ranked.filter (fun row => containsCI row.park_name q)
    | none => all_ranked
  let limited := pySlice limit filtered
  limited.map (fun row =>
    { rank := match all_ranked.findIdx? (fun r2 => r2.park_code = row.park_code) with
        | some i => (i : ℤ) + 1
        | none => 0
      park_code := row.park_code, park_name := row.park_name
      year := row.year, annual_total_visits := row.annual_total })

/-! ## Q11: `parks_by_metric` -/

/-- The whitelist dictionary `allowed` of Q11: metric name to column. -/
def allowedMetric (metric : Str) : Option (MonthlyVisit → ℤ) :=
  if metric = "concessioner_lodging".toList then some (fun v => v.concessioner_lodging)
  else if metric = "concessioner_camping".toList then some (fun v => v.concessioner_camping)
  else if metric = "tent_campers".toList then some (fun v => v.tent_campers)
  else if metric = "rv_campers".toList then some (fun v => v.rv_campers)
  else if metric = "backcountry".toList then some (fun v => v.backcountry)
  else if metric = "nonrecreation_overnight_stays".toList then
    some (fun v => v.nonrecreation_overnight_stays)
  else if metric = "miscellaneous_overnight_stays".toList then
    some (fun v => v.miscellaneous_overnight_stays)
  else none

/-- Endpoint `GET /annual-visits/parks/metrics`: sum one whitelisted monthly column
per park for a year; an unknown metric is a 400 naming it. -/
def parks_by_metric (s : Store) (year : ℤ) (metric : Str)
    (region_id : Option Str := none) (limit : ℤ := 50) :
    Except HTTPError (List MetricParkOut) :=
  match allowedMetric metric with
  | none => .error (badRequest ("Unsupported metric: " ++ String.mk metric))
  | some metricCol =>
    let region_id := region_id.map upper
    let rows0 := (joinPMR s).filter (fun row => row.visit.year = year)
    let rows1 := match region_id with
      | some rid => rows0.filter (fun row => row.region.any (fun r => r.region_id = rid))
      | none => rows0
    let groups := sqlGroupBy (fun row : PMRRow =>
      ((row.park.park_code, row.park.park_name,
        row.region.map (fun r => r.region_id), row.region.map (fun r => r.region_name),
        row.visit.year) : Q5Key)) rows1
    let aggs := groups.map (fun kg =>
      (kg.1, (kg.2.map (fun row => metricCol row.visit)).sum))
    let limited := sqlLimit limit (sortByDesc (fun kt : Q5Key × ℤ => kt.2) aggs)
    .ok (limited.map (fun kt =>
      { park_code := kt.1.1, park_name := kt.1.2.1
        region_id := kt.1.2.2.1, region_name := kt.1.2.2.2.1
        year := kt.1.2.2.2.2, metric_total := kt.2 }))

/-! ## Q7: `annual_visits_by_region` -/

/-- Endpoint `GET /annual-visits/regions`: total annual visits per region (inner
three-way join), descending, with 1-based enumeration ranks. -/
def annual_visits_by_region (s : Store) (year : ℤ)
    (region_id : Option Str := none) : List RegionAnnualVisitsOut :=
  let region_id := region_id.map upper
  let rows := s.regions.flatMap (fun r =>
    (s.parks.filter (fun p => p.region_id = some r.region_id)).flatMap (fun p =>
      (s.visits.filter (fun v => v.park_code = p.park_code)).map (fun v => (r, p, v))))
  let rows1 := rows.filter (fun x => x.2.2.year = year)
  let rows2 := match region_id with
    | some rid => rows1.filter (fun x => x.1.region_id = rid)
    | none => rows1
  let groups := sqlGroupBy (fun x : Region × Park × MonthlyVisit =>
    (x.1.region_id, x.1.region_name, x.2.2.year)) rows2
  let sorted := sortByDesc (fun kt : (Str × Str × ℤ) × ℤ => kt.2)
    (groups.map (fun kg => (kg.1, (kg.2.map (fun x => x.2.2.total_visits)).sum)))
  sorted.enum.map (fun ia =>
    { region_id := ia.2.1.1, region_name := ia.2.1.2.1, year := ia.2.1.2.2
      annual_total_visits := ia.2.2, rank := (ia.1 : ℤ) + 1 })

/-! ## Q8: `month_to_month_change` -/

/-- Endpoint `GET /parks/{park_code}/month-to-month-change`: each stored month of the
park/year (ascending) with `m1.total_visits - COALESCE(m2.total_visits, 0)`,
where `m2` is the row of the same park and year with month number exactly one
less (LEFT OUTER self-join; `find?` models the at-most-one row guaranteed by
the (park, year, month) primary key).  Since `total_visits` is non-null in the
data model, the change expression is never NULL, so `change_from_previous` is
always `some`. -/
def month_to_month_change (s : Store) (park_code : Str) (year : ℤ) :
    Except HTTPError (List MonthToMonthChangeOut) :=
  let pc := upper park_code
  let pairs := (s.visits.filter (fun m1 => m1.park_code = pc ∧ m1.year = year)).map
    (fun m1 => (m1, s.visits.find? (fun m2 =>
      m1.park_code = m2.park_code ∧ m1.year = m2.year ∧ m1.month = m2.month + 1)))
  let rows := sortByAsc (fun x : MonthlyVisit × Option MonthlyVisit => x.1.month) pairs
  if rows.isEmpty then .error (notFound "No visits for that park/year")
  else .ok (rows.map (fun x =>
    { month := x.1.month
      total_visits := x.1.total_visits
      change_from_previous := some (x.1.total_visits -
        (match x.2 with | some m2 => m2.total_visits | none => 0)) }))

/-! ## Q9: `growth_by_region_over_time` -/

/-- Endpoint `GET /regions/{region_id}/growth`: 400 unless `start_year < end_year`;
aggregates each park's annual totals in the two boundary years (inner joins,
so only parks with rows in BOTH years appear), computes the growth percent
with an explicit zero guard, and sorts descending by growth percent. -/
def growth_by_region_over_time (s : Store) (region_id : Str)
    (start_year end_year : ℤ) : Except HTTPError (List GrowthOut) :=
  if start_year ≥ end_year then .error (badRequest "start_year must be < end_year")
  else
    let rid := upper region_id
    let vp := vpJoin s
    let vp1 := vp.filter (fun x =>
      x.2.region_id = some rid ∧ (x.1.year = start_year ∨ x.1.year = end_year))
    let annual := (sqlGroupBy (fun x : MonthlyVisit × Park => (x.1.park_code, x.1.year)) vp1).map
      (fun kg => (kg.1, (kg.2.map (fun x => x.1.total_visits)).sum))
    let rows := s.parks.flatMap (fun p =>
      (s.regions.filter (fun r => p.region_id = some r.region_id)).flatMap (fun r =>
        (annual.filter (fun a => a.1.1 = p.park_code ∧ a.1.2 = start_year)).flatMap (fun sa =>
          (annual.filter (fun a => a.1.1 = p.park_code ∧ a.1.2 = end_year)).map (fun ea =>
            (p, r, sa.2, ea.2)))))
    let rows1 := rows.filter (fun x => x.2.1.region_id = rid)
    if rows1.isEmpty then .error (notFound "No data for that region/years")
    else
      .ok (sortByDesc (fun g : GrowthOut => g.growth_percent)
        (rows1.map (fun x : Park × Region × ℤ × ℤ =>
        { park_code := x.1.park_code, park_name := x.1.park_name
          region_id := x.2.1.region_id, region_name := x.2.1.region_name
          start_year := start_year, end_year := end_year
          start_total := x.2.2.1, end_total := x.2.2.2
          growth_percent :=
            if x.2.2.1 = 0 then 0
            else pyRound ((((x.2.2.2 - x.2.2.1 : ℤ) : ℚ) * 100) / x.2.2.1) })))

/-! ## Q10: `park_visit_variability` -/

/-- Endpoint `GET /visits/parks/variability`: per park of the year, `n` months with
data, the rounded mean and the rounded population standard deviation of its
monthly totals, sorted descending by the rounded standard deviation and cut
to `limit` in application code; 404 when no row matches. -/
def park_visit_variability (s : Store) (year : ℤ) (region_id : Option Str := none)
    (park_code : Option Str := none) (query : Option Str := none) (limit : ℤ := 10) :
    Except HTTPError (List VariabilityOut) :=
  let region_id := region_id.map upper
  let park_code := park_code.map upper
  let rows0 := (joinPMR s).filter (fun row => row.visit.year = year)
  let rows1 := match region_id with
    | some rid => rows0.filter (fun row => row.region.any (fun r => r.region_id = rid))
    | none => rows0
  let rows2 := match park_code with
    | some pc => rows1.filter (fun row => row.park.park_code = pc)
    | none => match query with
      | some q => rows1.filter (fun row => containsCI row.park.park_name q)
      | none => rows1
  let groups := sqlGroupBy (fun row : PMRRow =>
    ((row.park.park_code, row.park.park_name,
      row.region.map (fun r => r.region_id), row.region.map (fun r => r.region_name),
      row.visit.year) : Q5Key)) rows2
  if groups.isEmpty then .error (notFound "No data for that year/filters")
  else
    let results := groups.map (fun kg =>
      let n : ℤ := kg.2.length
      let sum_v : ℚ := ((kg.2.map (fun row => row.visit.total_visits)).sum : ℤ)
      let sum_v2 : ℚ :=
        ((kg.2.map (fun row => row.visit.total_visits * row.visit.total_visits)).sum : ℤ)
      let mean : ℚ := sum_v / n
      let variance : ℚ := max (sum_v2 / n - mean * mean) 0
      ({ park_code := kg.1.1, park_name := kg.1.2.1
         region_id := kg.1.2.2.1, region_name := kg.1.2.2.2.1
         year := kg.1.2.2.2.2
         avg_monthly_visits := pyRound mean
         std_dev_monthly_visits := pyRoundSqrt variance
         months_with_data := n } : VariabilityOut))
    let sorted := sortByDesc (fun r : VariabilityOut => r.std_dev_monthly_visits) results
    .ok (if 0 < limit then sorted.take limit.toNat else sorted)

/-! ## `get_park_details` -/

/-- Endpoint `GET /parks/{park_code}/details`: the first park with the given
(uppercased) code, outer-joined to its region; 404 when absent. -/
def get_park_details (s : Store) (park_code : Str) : Except HTTPError ParkDetailOut :=
  let pc := upper park_code
  match s.parks.find? (fun p => p.park_code = pc) with
  | none => .error (notFound ("Park " ++ String.mk pc ++ " not found"))
  | some p =>
    .ok { park_code := p.park_code, park_name := p.park_name
          state := p.state, designation := p.designation
          region_id := (regionOf s p).map (fun r => r.region_id)
          region_name := (regionOf s p).map (fun r => r.region_name)
          latitude := p.latitude, longitude := p.longitude
          description := p.description, website := p.website
          boundary := p.boundary }

/-! ## Spec-side views, well-formedness, and concrete stores -/

/-- Decidable equality of handler results. -/
instance {ε α : Type} [DecidableEq ε] [DecidableEq α] : DecidableEq (Except ε α) := fun a b =>
  match a, b with
  | .ok x, .ok y => if h : x = y then .isTrue (by rw [h]) else .isFalse (by simp [h])
  | .error x, .error y => if h : x = y then .isTrue (by rw [h]) else .isFalse (by simp [h])
  | .ok _, .error _ => .isFalse (by simp)
  | .error _, .ok _ => .isFalse (by simp)

/-- Spec-side view: the list of `total_visits` of the monthly rows stored for
one park code and year, in store order. -/
def parkYearTotals (s : Store) (year : ℤ) (pc : Str) : List ℤ :=
  (s.visits.filter (fun v => v.park_code = pc ∧ v.year = year)).map
    (fun v => v.total_visits)

/-- Glossary "Annual total": the sum of a park's `total_visits` across all its
monthly rows in a given year. -/
def annualTotal (s : Store) (year : ℤ) (pc : Str) : ℤ := (parkYearTotals s year pc).sum

/-- Data-model invariant: `park_code` is the primary key of `park`. -/
def Store.ParkCodesNodup (s : Store) : Prop := (s.parks.map Park.park_code).Nodup

/-- Data-model invariant: `(park_code, year, month)` is the primary key of
`monthly_visit` (at most one row per park per calendar month). -/
def Store.VisitPK (s : Store) : Prop :=
  s.visits.Nodup ∧ ∀ v1 ∈ s.visits, ∀ v2 ∈ s.visits,
    v1.park_code = v2.park_code → v1.year = v2.year → v1.month = v2.month → v1 = v2

/-- Data-model invariant: stored identifiers are canonical uppercase. -/
def Store.UpperIds (s : Store) : Prop :=
  (∀ p ∈ s.parks, upper p.park_code = p.park_code) ∧
  (∀ r ∈ s.regions, upper r.region_id = r.region_id)

/-- A one-park store: Grand Canyon, three months of 2024 with totals
100, 200, 300 (the worked example of the spec). -/
def sampleRegion : Region := { region_id := "IM".toList, region_name := "Intermountain".toList }

/-- The sample park of `sampleStore`. -/
def samplePark : Park :=
  { park_code := "GRCA".toList, park_name := "Grand Canyon".toList
    state := "AZ".toList, designation := "National Park".toList
    region_id := some ("IM".toList) }

/-- A monthly row of the sample park. -/
def sampleVisit (y m t : ℤ) : MonthlyVisit :=
  { park_code := "GRCA".toList, year := y, month := m, total_visits := t }

/-- The store of the spec's variability example: months 1–3 of 2024 with
totals 100, 200, 300. -/
def sampleStore : Store :=
  { regions := [sampleRegion], parks := [samplePark]
    visits := [sampleVisit 2024 1 100, sampleVisit 2024 2 200, sampleVisit 2024 3 300] }

/-- The store of the spec's growth example: annual totals 0 in 2020 and
500 in 2021. -/
def growthStore : Store :=
  { regions := [sampleRegion], parks := [samplePark]
    visits := [sampleVisit 2020 1 0, sampleVisit 2021 1 500] }

/-- A park without a region, for the above-average counterexample stores. -/
def plainPark (code name : String) : Park :=
  { park_code := code.toList, park_name := name.toList
    state := "AZ".toList, designation := "National Park".toList }

/-- One January row for a park code, for the above-average stores. -/
def janVisit (code : String) (t : ℤ) : MonthlyVisit :=
  { park_code := code.toList, year := 2024, month := 1, total_visits := t }

/-- Two parks with 2024 annual totals 101 and 102: the mean is 101.5, which
Python rounds (half to even) to 102. -/
def c3Store : Store :=
  { regions := [], parks := [plainPark "AAAA" "Alpha", plainPark "BBBB" "Beta"]
    visits := [janVisit "AAAA" 101, janVisit "BBBB" 102] }

/-- Three parks with 2024 annual totals 100, 200 and 300 (the worked
above-average example of the spec). -/
def c3Store3 : Store :=
  { regions := []
    parks := [plainPark "AAAA" "Alpha", plainPark "BBBB" "Beta", plainPark "CCCC" "Gamma"]
    visits := [janVisit "AAAA" 100, janVisit "BBBB" 200, janVisit "CCCC" 300] }

/-- The empty store. -/
def emptyStore : Store := { regions := [], parks := [], visits := [] }

/-- The single annual-totals record of `sampleStore` for 2024. -/
def sampleAnnualOut : AnnualParkVisitsOut :=
  { park_code := "GRCA".toList, park_name := "Grand Canyon".toList
    region_id := some ("IM".toList), region_name := some ("Intermountain".toList)
    year := 2024, annual_total_visits := 600
    state := some ("AZ".toList), latitude := none, longitude := none }

/-- The single variability record of `sampleStore` for 2024: mean 200,
population standard deviation 81.65 rounded to 82, three months of data. -/
def sampleVarOut : VariabilityOut :=
  { park_code := "GRCA".toList, park_name := "Grand Canyon".toList
    region_id := some ("IM".toList), region_name := some ("Intermountain".toList)
    year := 2024, avg_monthly_visits := 200, std_dev_monthly_visits := 82
    months_with_data := 3 }

/-- The growth record of `growthStore`: start total 0, end total 500, and a
growth percent of 0 by the explicit zero-division guard. -/
def growthOutRec : GrowthOut :=
  { park_code := "GRCA".toList, park_name := "Grand Canyon".toList
    region_id := "IM".toList, region_name := "Intermountain".toList
    start_year := 2020, end_year := 2021, start_total := 0, end_total := 500
    growth_percent := 0 }

/-- The single above-average record of `c3Store3`: annual total 300 against the
rounded system average 200, difference 100, 50 percent above. -/
def c3AboveOut : ParkAboveAverageOut :=
  { park_code := "CCCC".toList, park_name := "Gamma".toList
    region_id := none, region_name := none
    year := 2024, annual_total_visits := 300
    system_average_visits := 200, difference_from_average := 100
    percent_above_average := 50 }

/-- The single Top-N record of `sampleStore` for 2024. -/
def sampleTopOut : TopParkOut :=
  { rank := 1, park_code := "GRCA".toList, park_name := "Grand Canyon".toList
    year := 2024, annual_total_visits := 600 }

/-- The month-to-month response of `sampleStore` for 2024: note that every
month, including the first, carries a non-null change value. -/
def sampleM2MOut : List MonthToMonthChangeOut :=
  [{ month := 1, total_visits := 100, change_from_previous := some 100 }
   , { month := 2, total_visits := 200, change_from_previous := some 100 }
   , { month := 3, total_visits := 300, change_from_previous := some 100 }]

/-! ## Lemma layer: properties of the embedding helpers -/
theorem isqrtGo_correct : ∀ (fuel lo hi n : ℕ), lo * lo ≤ n → n < hi * hi →
    lo < hi → hi ≤ lo + fuel →
    isqrtGo fuel lo hi n * isqrtGo fuel lo hi n ≤ n ∧
      n < (isqrtGo fuel lo hi n + 1) * (isqrtGo fuel lo hi n + 1) := by
  intro fuel
  induction fuel with
  | zero => intro lo hi n _ _ h3 h4; exfalso; omega
  | succ fuel ih =>
    intro lo hi n h1 h2 h3 h4
    rw [isqrtGo]
    by_cases hle : hi ≤ lo + 1
    · have hhi : hi = lo + 1 := by omega
      subst hhi
      rw [if_pos hle]
      exact ⟨h1, h2⟩
    · rw [if_neg hle]
      by_cases hmid : (lo + hi) / 2 * ((lo + hi) / 2) ≤ n
      · rw [if_pos hmid]
        exact ih ((lo + hi) / 2) hi n hmid h2 (by omega) (by omega)
      · rw [if_neg hmid]
        exact ih lo ((lo + hi) / 2) n h1 (by omega) (by omega) (by omega)

/-- The value `isqrt n` is the integer square root of `n`. -/
theorem isqrt_correct (n : ℕ) :
    isqrt n * isqrt n ≤ n ∧ n < (isqrt n + 1) * (isqrt n + 1) := by
  refine isqrtGo_correct (n + 2) 0 (n + 1) n (by simp) ?_ (by omega) (by omega)
  calc n < n + 1 := by omega
    _ ≤ (n + 1) * (n + 1) := Nat.le_mul_of_pos_left _ (by omega)

theorem orderedInsertB_perm (le : α → α → Bool) (a : α) (l : List α) :
    List.Perm (orderedInsertB le a l) (a :: l) := by
  induction l with
  | nil => exact List.Perm.refl _
  | cons b l ih =>
    rw [orderedInsertB]
    by_cases h : le a b
    · rw [if_pos h]
    · rw [if_neg h]
      exact (List.Perm.cons b ih).trans (List.Perm.swap a b l)

theorem insertionSortB_perm (le : α → α → Bool) (l : List α) :
    List.Perm (insertionSortB le l) l := by
  induction l with
  | nil => exact List.Perm.refl _
  | cons a l ih =>
    exact (orderedInsertB_perm le a (insertionSortB le l)).trans (List.Perm.cons a ih)

theorem mem_insertionSortB {le : α → α → Bool} {a : α} {l : List α} :
    a ∈ insertionSortB le l ↔ a ∈ l :=
  (insertionSortB_perm le l).mem_iff

theorem mem_orderedInsertB {le : α → α → Bool} {x a : α} {l : List α} :
    x ∈ orderedInsertB le a l ↔ x = a ∨ x ∈ l := by
  rw [(orderedInsertB_perm le a l).mem_iff, List.mem_cons]

theorem orderedInsertB_pairwise {le : α → α → Bool}
    (htot : ∀ x y : α, le x y ∨ le y x)
    (htrans : ∀ x y z : α, le x y → le y z → le x z)
    (a : α) {l : List α} (h : l.Pairwise (le · ·)) :
    (orderedInsertB le a l).Pairwise (le · ·) := by
  induction l with
  | nil => simp [orderedInsertB]
  | cons b l ih =>
    rw [List.pairwise_cons] at h
    rw [orderedInsertB]
    by_cases hab : le a b
    · rw [if_pos hab]
      refine List.pairwise_cons.mpr ⟨?_, List.pairwise_cons.mpr h⟩
      intro x hx
      rcases List.mem_cons.mp hx with rfl | hx
      · exact hab
      · exact htrans a b x hab (h.1 x hx)
    · rw [if_neg hab]
      refine List.pairwise_cons.mpr ⟨?_, ih h.2⟩
      intro x hx
      rcases mem_orderedInsertB.mp hx with rfl | hx
      · exact (htot x b).resolve_left hab
      · exact h.1 x hx

theorem insertionSortB_pairwise {le : α → α → Bool}
    (htot : ∀ x y : α, le x y ∨ le y x)
    (htrans : ∀ x y z : α, le x y → le y z → le x z)
    (l : List α) : (insertionSortB le l).Pairwise (le · ·) := by
  induction l with
  | nil => simp [insertionSortB]
  | cons a l ih => exact orderedInsertB_pairwise htot htrans a ih

theorem sortByDesc_perm {β : Type} [LinearOrder β] (key : α → β) (l : List α) :
    List.Perm (sortByDesc key l) l := insertionSortB_perm _ l

theorem sortByAsc_perm {β : Type} [LinearOrder β] (key : α → β) (l : List α) :
    List.Perm (sortByAsc key l) l := insertionSortB_perm _ l

theorem mem_sortByDesc {β : Type} [LinearOrder β] {key : α → β} {l : List α} {a : α} :
    a ∈ sortByDesc key l ↔ a ∈ l := (sortByDesc_perm key l).mem_iff

theorem mem_sortByAsc {β : Type} [LinearOrder β] {key : α → β} {l : List α} {a : α} :
    a ∈ sortByAsc key l ↔ a ∈ l := (sortByAsc_perm key l).mem_iff

theorem sortByDesc_pairwise {β : Type} [LinearOrder β] (key : α → β) (l : List α) :
    (sortByDesc key l).Pairwise (fun a b => key b ≤ key a) := by
  have h := @insertionSortB_pairwise _ (fun a b => decide (key b ≤ key a))
    (fun x y => by
      rcases le_total (key y) (key x) with h | h
      · exact Or.inl (by simpa using h)
      · exact Or.inr (by simpa using h))
    (fun x y z hxy hyz => by
      simp only [decide_eq_true_eq] at hxy hyz ⊢
      exact le_trans hyz hxy) l
  exact h.imp (by simp)

theorem sortByAsc_pairwise {β : Type} [LinearOrder β] (key : α → β) (l : List α) :
    (sortByAsc key l).Pairwise (fun a b => key a ≤ key b) := by
  have h := @insertionSortB_pairwise _ (fun a b => decide (key a ≤ key b))
    (fun x y => by
      rcases le_total (key x) (key y) with h | h
      · exact Or.inl (by simpa using h)
      · exact Or.inr (by simpa using h))
    (fun x y z hxy hyz => by
      simp only [decide_eq_true_eq] at hxy hyz ⊢
      exact le_trans hxy hyz) l
  exact h.imp (by simp)

theorem mem_keysDedup [DecidableEq κ] {k : κ} : ∀ {l : List κ}, k ∈ keysDedup l ↔ k ∈ l := by
  intro l
  induction l with
  | nil => simp [keysDedup]
  | cons a l ih =>
    by_cases h : k = a
    · subst h; simp [keysDedup]
    · simp [keysDedup, List.mem_filter, h, ih]

theorem keysDedup_nodup [DecidableEq κ] : ∀ (l : List κ), (keysDedup l).Nodup := by
  intro l
  induction l with
  | nil => simp [keysDedup]
  | cons a l ih =>
    rw [keysDedup, List.nodup_cons]
    refine ⟨fun hmem => ?_, ih.filter _⟩
    have := (List.mem_filter.mp hmem).2
    simp at this

theorem mem_sqlGroupBy [DecidableEq κ] {key : α → κ} {rows : List α} {kg : κ × List α} :
    kg ∈ sqlGroupBy key rows ↔
      kg.1 ∈ rows.map key ∧ kg.2 = rows.filter (fun r => key r = kg.1) := by
  constructor
  · intro h
    rcases List.mem_map.mp h with ⟨k, hk, hkg⟩
    rcases hkg
    exact ⟨mem_keysDedup.mp hk, rfl⟩
  · rintro ⟨h1, h2⟩
    refine List.mem_map.mpr ⟨kg.1, mem_keysDedup.mpr h1, ?_⟩
    rw [← h2]

/-- Every group produced by `sqlGroupBy` is non-empty. -/
theorem sqlGroupBy_group_ne_nil [DecidableEq κ] {key : α → κ} {rows : List α}
    {kg : κ × List α} (h : kg ∈ sqlGroupBy key rows) : kg.2 ≠ [] := by
  rcases mem_sqlGroupBy.mp h with ⟨h1, h2⟩
  rcases List.mem_map.mp h1 with ⟨r, hr, hkey⟩
  intro hnil
  have : r ∈ kg.2 := by
    rw [h2]
    exact List.mem_filter.mpr ⟨hr, by simp [hkey]⟩
  rw [hnil] at this
  exact List.not_mem_nil r this

theorem mem_of_mem_sqlLimit {n : ℤ} {l : List α} {a : α} (h : a ∈ sqlLimit n l) : a ∈ l := by
  rw [sqlLimit] at h
  split at h
  · exact h
  · exact List.mem_of_mem_take h

theorem mem_of_mem_pySlice {n : ℤ} {l : List α} {a : α} (h : a ∈ pySlice n l) : a ∈ l := by
  rw [pySlice] at h
  split at h
  · exact List.mem_of_mem_take h
  · exact List.mem_of_mem_take h

/-- Membership characterization of the park-major three-table join. -/
theorem mem_joinPMR {s : Store} {row : PMRRow} :
    row ∈ joinPMR s ↔ ∃ p ∈ s.parks, ∃ v ∈ s.visits,
      v.park_code = p.park_code ∧ row = ⟨p, regionOf s p, v⟩ := by
  simp only [joinPMR, List.mem_flatMap, List.mem_map, List.mem_filter,
    decide_eq_true_eq]
  constructor
  · rintro ⟨p, hp, v, ⟨hv, hcode⟩, rfl⟩
    exact ⟨p, hp, v, hv, hcode, rfl⟩
  · rintro ⟨p, hp, v, hv, hcode, rfl⟩
    exact ⟨p, hp, v, ⟨hv, hcode⟩, rfl⟩

/-- Membership characterization of the visit-major join. -/
theorem mem_vpJoin {s : Store} {x : MonthlyVisit × Park} :
    x ∈ vpJoin s ↔ ∃ v ∈ s.visits, ∃ p ∈ s.parks,
      p.park_code = v.park_code ∧ x = (v, p) := by
  simp only [vpJoin, List.mem_flatMap, List.mem_map, List.mem_filter,
    decide_eq_true_eq]
  constructor
  · rintro ⟨v, hv, p, ⟨hp, hcode⟩, rfl⟩
    exact ⟨v, hv, p, hp, hcode, rfl⟩
  · rintro ⟨v, hv, p, hp, hcode, rfl⟩
    exact ⟨v, hv, p, ⟨hp, hcode⟩, rfl⟩

/-- Q10 raises 404 whenever the year filter leaves no joined row. -/
theorem variability_404 (s : Store) (year : ℤ) (region_id park_code query : Option Str)
    (lim : ℤ) (h0 : (joinPMR s).filter (fun row => row.visit.year = year) = []) :
    park_visit_variability s year region_id park_code query lim =
      .error (notFound "No data for that year/filters") := by
  rcases region_id with _ | rid <;> rcases park_code with _ | pc <;> rcases query with _ | q <;>
    simp [park_visit_variability, h0, sqlGroupBy, keysDedup]

/-- Q5 raises 404 whenever the year filter leaves no joined row in pass 1. -/
theorem above_average_404 (s : Store) (year : ℤ) (region_id park_code query : Option Str)
    (h0 : (vpJoin s).filter (fun x => x.1.year = year) = []) :
    parks_above_system_average s year region_id park_code query =
      .error (notFound "No data for that year/filters") := by
  rcases region_id with _ | rid <;>
    simp [parks_above_system_average, h0, sqlGroupBy, keysDedup]

/-- Q2 returns an empty list whenever the year filter leaves no joined row. -/
theorem annual_visits_empty (s : Store) (year : ℤ)
    (region_id park_code query : Option Str) (min_total : Option ℤ) (lim : ℤ)
    (h0 : (joinPMR s).filter (fun row => row.visit.year = year) = []) :
    annual_visits_by_park s year region_id park_code query min_total lim = [] := by
  rcases region_id with _ | rid <;> rcases park_code with _ | pc <;> rcases query with _ | q <;>
    rcases min_total with _ | mt <;>
    simp [annual_visits_by_park, h0, sqlGroupBy, keysDedup, sqlLimit, sortByDesc,
      insertionSortB]

/-! ## Claim theorems -/

/-- C7: every call of the average-monthly or growth operation with
`start_year > end_year` fails with a BadRequest (400) for all other parameter
values and all store states; the result does not depend on the store, so no
store query is executed. -/
theorem C7_inverted_range_bad_request
    (s : Store) (start_year end_year : ℤ) (region_id park_code query : Option Str)
    (limit : ℤ) (rid : Str) (h : start_year > end_year) :
    average_monthly_visits_by_park s start_year end_year region_id park_code query limit =
        .error (badRequest "start_year must be <= end_year") ∧
    growth_by_region_over_time s rid start_year end_year =
        .error (badRequest "start_year must be < end_year") := by
  constructor
  · rw [average_monthly_visits_by_park, if_pos h]
  · rw [growth_by_region_over_time, if_pos (le_of_lt h)]

/-- Witness for C7: a concrete inverted range on the empty store. -/
theorem C7_witness :
    average_monthly_visits_by_park emptyStore 2024 2020 none none none 100 =
        .error (badRequest "start_year must be <= end_year") ∧
    growth_by_region_over_time emptyStore ("IM".toList) 2024 2020 =
        .error (badRequest "start_year must be < end_year") :=
  C7_inverted_range_bad_request emptyStore 2024 2020 none none none 100 ("IM".toList)
    (by decide)

/-- C10: for the four operations accepting both an exact `park_code` filter
and a partial-name `query` filter (annual totals, average monthly, above
average, variability), a supplied `park_code` makes the `query` parameter
irrelevant: for every store and parameters, the call with both equals the
call with `query` omitted. -/
theorem C10_park_code_overrides_query
    (s : Store) (year start_year end_year : ℤ) (region_id : Option Str)
    (pc q : Str) (min_total : Option ℤ) (lim1 lim2 lim3 : ℤ) :
    annual_visits_by_park s year region_id (some pc) (some q) min_total lim1 =
        annual_visits_by_park s year region_id (some pc) none min_total lim1 ∧
    average_monthly_visits_by_park s start_year end_year region_id (some pc) (some q) lim2 =
        average_monthly_visits_by_park s start_year end_year region_id (some pc) none lim2 ∧
    parks_above_system_average s year region_id (some pc) (some q) =
        parks_above_system_average s year region_id (some pc) none ∧
    park_visit_variability s year region_id (some pc) (some q) lim3 =
        park_visit_variability s year region_id (some pc) none lim3 :=
  ⟨rfl, rfl, rfl, rfl⟩

/-- C6 counterexample: on the empty store (a store state where every filtered
result set is empty), the annual-totals operation returns the empty list
instead of failing with a NotFound condition, while the monthly-series
operation does fail with 404 — so "every operation fails with NotFound on an
empty result, in particular annual_visits_by_park" is false. -/
theorem C6_counterexample :
    annual_visits_by_park emptyStore 2024 none none none none 100 = ([] : List AnnualParkVisitsOut) ∧
    park_monthly_visits_with_threshold emptyStore ("GRCA".toList) 2024 0 =
      .error (notFound "No visits for that park/year") := by
  constructor
  · decide
  · decide

/-- C6 amended: the empty-result behaviour is inconsistent across the
catalogue.  When no stored row matches the year, the monthly-series,
month-to-month, variability and above-average operations fail with a 404
NotFound, but the annual-totals operation (`annual_visits_by_park`) returns
an empty list for every filter combination. -/
theorem C6_empty_result_inconsistent
    (s : Store) (pc : Str) (year threshold : ℤ)
    (region_id park_code query : Option Str) (min_total : Option ℤ) (lim lim2 : ℤ)
    (hv : s.visits.filter (fun v => v.year = year) = []) :
    park_monthly_visits_with_threshold s pc year threshold =
        .error (notFound "No visits for that park/year") ∧
    month_to_month_change s pc year = .error (notFound "No visits for that park/year") ∧
    park_visit_variability s year region_id park_code query lim =
        .error (notFound "No data for that year/filters") ∧
    parks_above_system_average s year region_id park_code query =
        .error (notFound "No data for that year/filters") ∧
    annual_visits_by_park s year region_id park_code query min_total lim2 = [] := by
  have hy : ∀ v ∈ s.visits, v.year ≠ year := by
    intro v hv'
    have := List.filter_eq_nil_iff.mp hv v hv'
    simpa using this
  have h1 : s.visits.filter
      (fun v => decide (v.park_code = upper pc) && decide (v.year = year)) = [] := by
    rw [List.filter_eq_nil_iff]
    intro v hv'
    simp only [Bool.and_eq_true, decide_eq_true_eq, not_and]
    exact fun _ => hy v hv'
  have h0 : (joinPMR s).filter (fun row => row.visit.year = year) = [] := by
    rw [List.filter_eq_nil_iff]
    intro row hrow
    rcases mem_joinPMR.mp hrow with ⟨p, _, v, hv', _, rfl⟩
    simpa using hy v hv'
  have hvp : (vpJoin s).filter (fun x => x.1.year = year) = [] := by
    rw [List.filter_eq_nil_iff]
    intro x hx
    rcases mem_vpJoin.mp hx with ⟨v, hv', p, _, _, rfl⟩
    simpa using hy v hv'
  refine ⟨?_, ?_, variability_404 s year region_id park_code query lim h0,
    above_average_404 s year region_id park_code query hvp,
    annual_visits_empty s year region_id park_code query min_total lim2 h0⟩
  · simp [park_monthly_visits_with_threshold, h1, sortByAsc, insertionSortB]
  · simp [month_to_month_change, h1, sortByAsc, insertionSortB]

/-- Witness for the amended C6 at the empty store. -/
theorem C6_empty_result_inconsistent_witness :
    park_monthly_visits_with_threshold emptyStore ("GRCA".toList) 2024 0 =
        .error (notFound "No visits for that park/year") ∧
    month_to_month_change emptyStore ("GRCA".toList) 2024 =
        .error (notFound "No visits for that park/year") ∧
    park_visit_variability emptyStore 2024 none none none 10 =
        .error (notFound "No data for that year/filters") ∧
    parks_above_system_average emptyStore 2024 none none none =
        .error (notFound "No data for that year/filters") ∧
    annual_visits_by_park emptyStore 2024 none none none none 100 = [] :=
  C6_empty_result_inconsistent emptyStore ("GRCA".toList) 2024 0 none none none none 10 100
    (by decide)

/-- C5 counterexample: on a store with monthly rows for months 1–3 of a year,
the first available month (month 1) has `change_from_previous = some 100` —
its own total, coming from `m1.total_visits - COALESCE(m2.total_visits, 0)` —
and not the null/absent value the claim asserts. -/
theorem C5_counterexample :
    month_to_month_change sampleStore ("GRCA".toList) 2024 = .ok sampleM2MOut ∧
    ∀ o ∈ sampleM2MOut, o.change_from_previous ≠ none := by
  constructor
  · decide
  · decide

/-- C5 amended: each returned month's `change_from_previous` is always
present (never null), and equals the month's total minus the total of the
row for the same park, same year and month number one less when that row
exists, and the month's own total (previous treated as 0) when it does not —
in particular the first available month's change equals its own total. -/
theorem C5_change_from_previous (s : Store) (pc : Str) (year : ℤ)
    (hpk : s.VisitPK) (out : List MonthToMonthChangeOut)
    (hout : month_to_month_change s pc year = .ok out) :
    (∀ o ∈ out, ∃ v ∈ s.visits, v.park_code = upper pc ∧ v.year = year ∧
        v.month = o.month ∧ v.total_visits = o.total_visits) ∧
    (∀ o ∈ out, ∀ w ∈ s.visits, w.park_code = upper pc → w.year = year →
        w.month = o.month - 1 →
        o.change_from_previous = some (o.total_visits - w.total_visits)) ∧
    (∀ o ∈ out,
        (∀ w ∈ s.visits, ¬(w.park_code = upper pc ∧ w.year = year ∧ w.month = o.month - 1)) →
        o.change_from_previous = some o.total_visits) := by
  rw [month_to_month_change] at hout
  split at hout
  · exact absurd hout (by simp)
  · rw [Except.ok.injEq] at hout
    subst hout
    have hmem : ∀ o, o ∈ (sortByAsc (fun x : MonthlyVisit × Option MonthlyVisit => x.1.month)
        ((s.visits.filter (fun m1 => m1.park_code = upper pc ∧ m1.year = year)).map
          (fun m1 => (m1, s.visits.find? (fun m2 =>
            m1.park_code = m2.park_code ∧ m1.year = m2.year ∧
              m1.month = m2.month + 1))))).map (fun x =>
        ({ month := x.1.month, total_visits := x.1.total_visits
           change_from_previous := some (x.1.total_visits -
             (match x.2 with | some m2 => m2.total_visits | none => 0)) } :
          MonthToMonthChangeOut)) →
        ∃ m1 ∈ s.visits, m1.park_code = upper pc ∧ m1.year = year ∧
          o.month = m1.month ∧ o.total_visits = m1.total_visits ∧
          o.change_from_previous = some (m1.total_visits -
            (match s.visits.find? (fun m2 =>
                m1.park_code = m2.park_code ∧ m1.year = m2.year ∧
                  m1.month = m2.month + 1) with
              | some m2 => m2.total_visits | none => 0)) := by
      intro o ho
      rcases List.mem_map.mp ho with ⟨x, hx, rfl⟩
      rcases List.mem_map.mp (mem_sortByAsc.mp hx) with ⟨m1, hm1, rfl⟩
      rcases List.mem_filter.mp hm1 with ⟨hm1s, hm1p⟩
      simp only [decide_eq_true_eq] at hm1p
      exact ⟨m1, hm1s, hm1p.1, hm1p.2, rfl, rfl, rfl⟩
    refine ⟨?_, ?_, ?_⟩
    · intro o ho
      rcases hmem o ho with ⟨m1, hm1s, hcode, hyear, hmo, hto, _⟩
      exact ⟨m1, hm1s, hcode, hyear, hmo.symm, hto.symm⟩
    · intro o ho w hw hwcode hwyear hwmonth
      rcases hmem o ho with ⟨m1, hm1s, hcode, hyear, hmo, hto, hch⟩
      rcases hfind : s.visits.find? (fun m2 =>
          m1.park_code = m2.park_code ∧ m1.year = m2.year ∧ m1.month = m2.month + 1) with
        _ | m2
      · exfalso
        have hnone := List.find?_eq_none.mp hfind w hw
        apply hnone
        simp only [decide_eq_true_eq]
        refine ⟨by rw [hcode, hwcode], by rw [hyear, hwyear], by omega⟩
      · have hm2s := List.mem_of_find?_eq_some hfind
        have hm2p := List.find?_some hfind
        simp only [decide_eq_true_eq] at hm2p
        have hweq : w = m2 := by
          refine hpk.2 w hw m2 hm2s ?_ ?_ ?_
          · rw [hwcode, ← hm2p.1, hcode]
          · rw [hwyear, ← hm2p.2.1, hyear]
          · omega
        rw [hch, hfind]
        rw [hto, hweq]
    · intro o ho hnoprev
      rcases hmem o ho with ⟨m1, hm1s, hcode, hyear, hmo, hto, hch⟩
      rcases hfind : s.visits.find? (fun m2 =>
          m1.park_code = m2.park_code ∧ m1.year = m2.year ∧ m1.month = m2.month + 1) with
        _ | m2
      · rw [hch, hfind, hto]
        simp
      · exfalso
        have hm2s := List.mem_of_find?_eq_some hfind
        have hm2p := List.find?_some hfind
        simp only [decide_eq_true_eq] at hm2p
        exact hnoprev m2 hm2s ⟨by rw [← hm2p.1, hcode], by rw [← hm2p.2.1, hyear], by omega⟩

/-- Witness for the amended C5 on the sample store. -/
theorem C5_change_from_previous_witness :
    (∀ o ∈ sampleM2MOut, ∃ v ∈ sampleStore.visits, v.park_code = upper ("GRCA".toList) ∧
        v.year = 2024 ∧ v.month = o.month ∧ v.total_visits = o.total_visits) ∧
    (∀ o ∈ sampleM2MOut, ∀ w ∈ sampleStore.visits, w.park_code = upper ("GRCA".toList) →
        w.year = 2024 → w.month = o.month - 1 →
        o.change_from_previous = some (o.total_visits - w.total_visits)) ∧
    (∀ o ∈ sampleM2MOut,
        (∀ w ∈ sampleStore.visits,
          ¬(w.park_code = upper ("GRCA".toList) ∧ w.year = 2024 ∧ w.month = o.month - 1)) →
        o.change_from_previous = some o.total_visits) :=
  C5_change_from_previous sampleStore ("GRCA".toList) 2024 (by unfold Store.VisitPK; decide)
    sampleM2MOut (by decide)

/-- C8: for every park and year with at least one stored row and every
threshold, the monthly-series operation succeeds and returns exactly the
stored months (no interpolation), in strictly ascending month order, each
with its stored total, and `above_threshold` is true iff
`total_visits ≥ threshold`. -/
theorem C8_monthly_series (s : Store) (pc : Str) (year threshold : ℤ)
    (hpk : s.VisitPK)
    (hne : s.visits.filter (fun v => v.park_code = upper pc ∧ v.year = year) ≠ []) :
    ∃ out, park_monthly_visits_with_threshold s pc year threshold = .ok out ∧
      (out.map (fun o => o.month)).Pairwise (fun a b => a < b) ∧
      (∀ m : ℤ, (∃ o ∈ out, o.month = m) ↔
        ∃ v ∈ s.visits, v.park_code = upper pc ∧ v.year = year ∧ v.month = m) ∧
      (∀ o ∈ out, ∃ v ∈ s.visits, v.park_code = upper pc ∧ v.year = year ∧
        v.month = o.month ∧ v.total_visits = o.total_visits) ∧
      (∀ o ∈ out, o.above_threshold = true ↔ o.total_visits ≥ threshold) := by
  have hL : ∀ v, v ∈ s.visits.filter (fun v => v.park_code = upper pc ∧ v.year = year) ↔
      v ∈ s.visits ∧ v.park_code = upper pc ∧ v.year = year := by
    intro v
    rw [List.mem_filter]
    simp
  have hrowsmem : ∀ v, v ∈ sortByAsc (fun v : MonthlyVisit => v.month)
      (s.visits.filter (fun v => v.park_code = upper pc ∧ v.year = year)) ↔
      v ∈ s.visits ∧ v.park_code = upper pc ∧ v.year = year := by
    intro v
    rw [mem_sortByAsc, hL]
  have hrne : sortByAsc (fun v : MonthlyVisit => v.month)
      (s.visits.filter (fun v => v.park_code = upper pc ∧ v.year = year)) ≠ [] := by
    intro hnil
    apply hne
    have := (sortByAsc_perm (fun v : MonthlyVisit => v.month)
      (s.visits.filter (fun v => v.park_code = upper pc ∧ v.year = year))).symm
    rw [hnil] at this
    exact List.Perm.eq_nil this
  have hie : (sortByAsc (fun v : MonthlyVisit => v.month)
      (s.visits.filter (fun v => v.park_code = upper pc ∧ v.year = year))).isEmpty = false := by
    rcases h : (sortByAsc (fun v : MonthlyVisit => v.month)
        (s.visits.filter (fun v => v.park_code = upper pc ∧ v.year = year))).isEmpty
    · rfl
    · exact absurd (List.isEmpty_iff.mp h) hrne
  refine ⟨(sortByAsc (fun v : MonthlyVisit => v.month)
      (s.visits.filter (fun v => v.park_code = upper pc ∧ v.year = year))).map
      (fun v => { month := v.month, total_visits := v.total_visits
                  above_threshold := decide (v.total_visits ≥ threshold) }),
    ?_, ?_, ?_, ?_, ?_⟩
  · have hie2 : (sortByAsc (fun v : MonthlyVisit => v.month)
        (s.visits.filter (fun v =>
          decide (v.park_code = upper pc) && decide (v.year = year)))).isEmpty = false := by
      simpa using hie
    simp [park_monthly_visits_with_threshold, hie2]
  · rw [List.pairwise_map, List.pairwise_map]
    have hnd : (sortByAsc (fun v : MonthlyVisit => v.month)
        (s.visits.filter (fun v => v.park_code = upper pc ∧ v.year = year))).Nodup :=
      ((sortByAsc_perm _ _).nodup_iff).mpr (hpk.1.filter _)
    have hsorted := sortByAsc_pairwise (fun v : MonthlyVisit => v.month)
      (s.visits.filter (fun v => v.park_code = upper pc ∧ v.year = year))
    refine List.Pairwise.imp_of_mem ?_ (hsorted.and hnd)
    intro a b ha hb hab
    rcases (hrowsmem a).mp ha with ⟨has, hac, hay⟩
    rcases (hrowsmem b).mp hb with ⟨hbs, hbc, hby⟩
    rcases hab with ⟨hle, hne2⟩
    rcases lt_or_eq_of_le hle with h | h
    · exact h
    · exact absurd (hpk.2 a has b hbs (by rw [hac, hbc]) (by rw [hay, hby]) h) hne2
  · intro m
    constructor
    · rintro ⟨o, ho, rfl⟩
      rcases List.mem_map.mp ho with ⟨v, hv, rfl⟩
      rcases (hrowsmem v).mp hv with ⟨hvs, hvc, hvy⟩
      exact ⟨v, hvs, hvc, hvy, rfl⟩
    · rintro ⟨v, hvs, hvc, hvy, rfl⟩
      refine ⟨_, List.mem_map.mpr ⟨v, (hrowsmem v).mpr ⟨hvs, hvc, hvy⟩, rfl⟩, rfl⟩
  · intro o ho
    rcases List.mem_map.mp ho with ⟨v, hv, rfl⟩
    rcases (hrowsmem v).mp hv with ⟨hvs, hvc, hvy⟩
    exact ⟨v, hvs, hvc, hvy, rfl, rfl⟩
  · intro o ho
    rcases List.mem_map.mp ho with ⟨v, _, rfl⟩
    simp

/-- Witness for C8 on the sample store with threshold 150. -/
theorem C8_monthly_series_witness :
    ∃ out, park_monthly_visits_with_threshold sampleStore ("grca".toList) 2024 150 = .ok out ∧
      (out.map (fun o => o.month)).Pairwise (fun a b => a < b) ∧
      (∀ m : ℤ, (∃ o ∈ out, o.month = m) ↔
        ∃ v ∈ sampleStore.visits, v.park_code = upper ("grca".toList) ∧ v.year = 2024 ∧
          v.month = m) ∧
      (∀ o ∈ out, ∃ v ∈ sampleStore.visits, v.park_code = upper ("grca".toList) ∧
        v.year = 2024 ∧ v.month = o.month ∧ v.total_visits = o.total_visits) ∧
      (∀ o ∈ out, o.above_threshold = true ↔ o.total_visits ≥ 150) :=
  C8_monthly_series sampleStore ("grca".toList) 2024 150 (by unfold Store.VisitPK; decide)
    (by decide)

/-- C1: for every year, scope (global or one region), partial-name filter and
limit, the full scope is ranked first (in descending annual-total order), the
name filter and the truncation are applied afterwards, and every surviving
record's reported rank is its park's 1-based position in the full
descending-by-annual-total ordering of the unfiltered scope (the position of
the first ranked row carrying its park code); the ranked scope — and hence
every surviving park's rank — does not depend on the name filter or the
limit. -/
theorem C1_rank_over_full_scope (s : Store) (year limit : ℤ)
    (region_id query : Option Str) :
    (rankedScope s year (region_id.map upper)).Pairwise
      (fun a b => b.annual_total ≤ a.annual_total) ∧
    ∀ r ∈ top_parks_by_year s year limit region_id query,
      ∃ i : ℕ, r.rank = (i : ℤ) + 1 ∧
        (∃ row, (rankedScope s year (region_id.map upper))[i]? = some row ∧
          row.park_code = r.park_code) ∧
        ∀ j < i, ∀ rowj, (rankedScope s year (region_id.map upper))[j]? = some rowj →
          rowj.park_code ≠ r.park_code := by
  constructor
  · rw [rankedScope.eq_def]
    exact sortByDesc_pairwise _ _
  · intro r hr
    rw [top_parks_by_year.eq_def] at hr
    rcases List.mem_map.mp hr with ⟨row, hrow, rfl⟩
    have hrowA : row ∈ rankedScope s year (region_id.map upper) := by
      have hrow2 := mem_of_mem_pySlice hrow
      rcases query with _ | q
      · exact hrow2
      · exact (List.mem_filter.mp hrow2).1
    have hsome : ((rankedScope s year (region_id.map upper)).findIdx?
        (fun r2 => r2.park_code = row.park_code)).isSome = true := by
      rw [List.findIdx?_isSome, List.any_eq_true]
      exact ⟨row, hrowA, by simp⟩
    rcases Option.isSome_iff_exists.mp hsome with ⟨i, hi⟩
    rcases List.findIdx?_eq_some_iff_getElem.mp hi with ⟨hlen, hp, hprev⟩
    refine ⟨i, ?_, ?_, ?_⟩
    · show (match (rankedScope s year (region_id.map upper)).findIdx?
          (fun r2 => r2.park_code = row.park_code) with
        | some i => (i : ℤ) + 1
        | none => 0) = (i : ℤ) + 1
      rw [hi]
    · refine ⟨(rankedScope s year (region_id.map upper))[i], ?_, ?_⟩
      · exact List.getElem?_eq_getElem hlen
      · simpa using hp
    · intro j hj rowj hrowj
      have hj2 : j < (rankedScope s year (region_id.map upper)).length :=
        Nat.lt_trans hj hlen
      have := hprev j hj
      rw [List.getElem?_eq_getElem hj2] at hrowj
      rw [Option.some.injEq] at hrowj
      subst hrowj
      simpa using this

/-- Witness for C1 on the sample store, with a name filter that the sample
park survives. -/
theorem C1_rank_over_full_scope_witness :
    (rankedScope sampleStore 2024 ((none : Option Str).map upper)).Pairwise
      (fun a b => b.annual_total ≤ a.annual_total) ∧
    (∃ i : ℕ, sampleTopOut.rank = (i : ℤ) + 1 ∧
      (∃ row, (rankedScope sampleStore 2024 ((none : Option Str).map upper))[i]? = some row ∧
        row.park_code = sampleTopOut.park_code) ∧
      ∀ j < i, ∀ rowj,
        (rankedScope sampleStore 2024 ((none : Option Str).map upper))[j]? = some rowj →
        rowj.park_code ≠ sampleTopOut.park_code) :=
  ⟨(C1_rank_over_full_scope sampleStore 2024 10 none (some ("canyon".toList))).1,
    (C1_rank_over_full_scope sampleStore 2024 10 none (some ("canyon".toList))).2
      sampleTopOut (by decide)⟩

/-- Packing a valid codepoint and unpacking it is the identity. -/
theorem char_toNat_ofNat {n : ℕ} (h : n.isValidChar) : (Char.ofNat n).toNat = n := by
  rw [Char.ofNat, dif_pos h]
  rfl

/-- ASCII uppercasing of a character is idempotent. -/
theorem toUpper_idem_char (c : Char) : c.toUpper.toUpper = c.toUpper := by
  by_cases h : c.toNat ≥ 97 ∧ c.toNat ≤ 122
  · have hv : (c.toNat - 32).isValidChar := Or.inl (by omega)
    have h1 : c.toUpper = Char.ofNat (c.toNat - 32) := by rw [Char.toUpper, if_pos h]
    rw [h1, Char.toUpper, char_toNat_ofNat hv, if_neg (by omega)]
  · have h1 : c.toUpper = c := by rw [Char.toUpper, if_neg h]
    rw [h1, Char.toUpper, if_neg h]

/-- Uppercasing an identifier is idempotent. -/
theorem upper_idem (s : Str) : upper (upper s) = upper s := by
  rw [upper, upper, List.map_map]
  simp [Function.comp_def, toUpper_idem_char]

/-- C9: every operation that takes a park-code or region-code identifier
filter uppercases it before matching, so its result is invariant under the
letter case of the supplied identifier — for every store state and parameter
assignment, the call with any-cased code equals the call with the uppercased
code, for all twelve such operations; and (for the annual-totals operation,
under the canonical-uppercase store invariant) every returned record echoes
canonical uppercase park and region codes. -/
theorem C9_case_insensitive_identifiers (s : Store)
    (pc rid metric : Str) (year start_year end_year threshold : ℤ)
    (region_id park_code query : Option Str) (min_total : Option ℤ)
    (lim1 lim2 lim3 lim4 lim5 : ℤ) :
    park_monthly_visits_with_threshold s pc year threshold =
      park_monthly_visits_with_threshold s (upper pc) year threshold ∧
    annual_visits_by_park s year (some rid) park_code query min_total lim1 =
      annual_visits_by_park s year (some (upper rid)) park_code query min_total lim1 ∧
    annual_visits_by_park s year region_id (some pc) query min_total lim1 =
      annual_visits_by_park s year region_id (some (upper pc)) query min_total lim1 ∧
    average_monthly_visits_by_park s start_year end_year (some rid) park_code query lim2 =
      average_monthly_visits_by_park s start_year end_year (some (upper rid)) park_code query lim2 ∧
    average_monthly_visits_by_park s start_year end_year region_id (some pc) query lim2 =
      average_monthly_visits_by_park s start_year end_year region_id (some (upper pc)) query lim2 ∧
    peak_season_above_threshold s year threshold (some rid) =
      peak_season_above_threshold s year threshold (some (upper rid)) ∧
    parks_above_system_average s year (some rid) park_code query =
      parks_above_system_average s year (some (upper rid)) park_code query ∧
    parks_above_system_average s year region_id (some pc) query =
      parks_above_system_average s year region_id (some (upper pc)) query ∧
    top_parks_by_year s year lim3 (some rid) query =
      top_parks_by_year s year lim3 (some (upper rid)) query ∧
    annual_visits_by_region s year (some rid) =
      annual_visits_by_region s year (some (upper rid)) ∧
    month_to_month_change s pc year = month_to_month_change s (upper pc) year ∧
    growth_by_region_over_time s rid start_year end_year =
      growth_by_region_over_time s (upper rid) start_year end_year ∧
    park_visit_variability s year (some rid) park_code query lim4 =
      park_visit_variability s year (some (upper rid)) park_code query lim4 ∧
    park_visit_variability s year region_id (some pc) query lim4 =
      park_visit_variability s year region_id (some (upper pc)) query lim4 ∧
    parks_by_metric s year metric (some rid) lim5 =
      parks_by_metric s year metric (some (upper rid)) lim5 ∧
    get_park_details s pc = get_park_details s (upper pc) ∧
    (s.UpperIds → ∀ r ∈ annual_visits_by_park s year region_id park_code query min_total lim1,
      upper r.park_code = r.park_code ∧
        ∀ rid2, r.region_id = some rid2 → upper rid2 = rid2) := by
  refine ⟨?_, ?_, ?_, ?_, ?_, ?_, ?_, ?_, ?_, ?_, ?_, ?_, ?_, ?_, ?_, ?_, ?_⟩
  · simp only [park_monthly_visits_with_threshold, upper_idem]
  · simp only [annual_visits_by_park, Option.map_some', upper_idem]
  · simp only [annual_visits_by_park, Option.map_some', upper_idem]
  · simp only [average_monthly_visits_by_park, Option.map_some', upper_idem]
  · simp only [average_monthly_visits_by_park, Option.map_some', upper_idem]
  · simp only [peak_season_above_threshold, Option.map_some', upper_idem]
  · simp only [parks_above_system_average, Option.map_some', upper_idem]
  · simp only [parks_above_system_average, Option.map_some', upper_idem]
  · simp only [top_parks_by_year, rankedScope, Option.map_some', upper_idem]
  · simp only [annual_visits_by_region, Option.map_some', upper_idem]
  · simp only [month_to_month_change, upper_idem]
  · simp only [growth_by_region_over_time, upper_idem]
  · simp only [park_visit_variability, Option.map_some', upper_idem]
  · simp only [park_visit_variability, Option.map_some', upper_idem]
  · simp only [parks_by_metric, Option.map_some', upper_idem]
  · simp only [get_park_details, upper_idem]
  · intro hup r hr
    rcases region_id with _ | rid0 <;> rcases park_code with _ | pc0 <;>
      rcases query with _ | q0 <;> rcases min_total with _ | mt0 <;>
    · simp only [annual_visits_by_park] at hr
      rcases List.mem_map.mp hr with ⟨kt, hkt, rfl⟩
      replace hkt := mem_sortByDesc.mp (mem_of_mem_sqlLimit hkt)
      repeat replace hkt := (List.mem_filter.mp hkt).1
      rcases List.mem_map.mp hkt with ⟨kg, hkg, rfl⟩
      rcases mem_sqlGroupBy.mp hkg with ⟨hk1, _⟩
      rcases List.mem_map.mp hk1 with ⟨row, hrow, hkey⟩
      repeat replace hrow := (List.mem_filter.mp hrow).1
      rcases mem_joinPMR.mp hrow with ⟨p, hp, v, _, _, rfl⟩
      rcases kg with ⟨k, g⟩
      cases hkey
      refine ⟨hup.1 p hp, ?_⟩
      intro rid2 hrid2
      simp only [Option.map_eq_some'] at hrid2
      rcases hrid2 with ⟨reg, hreg, rfl⟩
      rw [regionOf] at hreg
      exact hup.2 reg (List.mem_of_find?_eq_some hreg)

/-- Witness for C9: a lowercase call on the sample store, and the echoed
record of the annual-totals operation. -/
theorem C9_case_insensitive_identifiers_witness :
    park_monthly_visits_with_threshold sampleStore ("grca".toList) 2024 0 =
      park_monthly_visits_with_threshold sampleStore (upper ("grca".toList)) 2024 0 ∧
    (upper sampleAnnualOut.park_code = sampleAnnualOut.park_code ∧
      ∀ rid2, sampleAnnualOut.region_id = some rid2 → upper rid2 = rid2) :=
  ⟨(C9_case_insensitive_identifiers sampleStore ("grca".toList) ("im".toList)
      ("tent_campers".toList) 2024 2020 2024 0 none none none none 100 100 10 10 50).1,
    (C9_case_insensitive_identifiers sampleStore ("grca".toList) ("im".toList)
      ("tent_campers".toList) 2024 2020 2024 0 none none none none 100 100 10 10 50).2.2.2.2.2.2.2.2.2.2.2.2.2.2.2.2
      (by unfold Store.UpperIds; decide) sampleAnnualOut (by decide)⟩

/-- Two stored parks with the same code are the same row (primary key). -/
theorem park_inj {s : Store} (hcodes : s.ParkCodesNodup) {p q : Park}
    (hp : p ∈ s.parks) (hq : q ∈ s.parks) (h : p.park_code = q.park_code) : p = q :=
  List.inj_on_of_nodup_map hcodes hp hq h

/-- Filtering a code-nodup park list by one stored park's code yields exactly
that park. -/
theorem filter_code_singleton {l : List Park} (h : (l.map Park.park_code).Nodup)
    {p : Park} (hp : p ∈ l) :
    l.filter (fun q => q.park_code = p.park_code) = [p] := by
  induction l with
  | nil => cases hp
  | cons a l ih =>
    rw [List.map_cons, List.nodup_cons] at h
    rcases List.mem_cons.mp hp with rfl | hp2
    · rw [List.filter_cons, if_pos (by simp)]
      have hz : l.filter (fun q => q.park_code = p.park_code) = [] := by
        rw [List.filter_eq_nil_iff]
        intro q hq hcode
        rw [decide_eq_true_eq] at hcode
        exact h.1 (List.mem_map.mpr ⟨q, hq, hcode⟩)
      rw [hz]
    · rw [List.filter_cons, if_neg ?_]
      · exact ih h.2 hp2
      · rw [decide_eq_true_eq]
        intro hcode
        exact h.1 (List.mem_map.mpr ⟨p, hp2, hcode.symm⟩)

/-- Turning per-element singleton-or-empty blocks of a `flatMap` into a
`filter` + `map`. -/
theorem flatMap_if_singleton {α β : Type} (l : List α) (c : α → Bool) (g : α → β) :
    (l.flatMap (fun a => if c a then [g a] else [])) = (l.filter c).map g := by
  induction l with
  | nil => rfl
  | cons a l ih =>
    rw [List.flatMap_cons, List.filter_cons]
    by_cases h : c a
    · rw [if_pos h, if_pos h, List.map_cons, ih]
      rfl
    · rw [if_neg h, if_neg h, ih]
      rfl

/-- A `flatMap` whose blocks vanish except at one element of a nodup list. -/
theorem flatMap_ite_eq_single {α β : Type} [DecidableEq α] :
    ∀ {l : List α}, l.Nodup → ∀ {p : α}, p ∈ l → ∀ (f : α → List β),
      (l.flatMap (fun a => if a = p then f a else [])) = f p := by
  intro l
  induction l with
  | nil =>
    intro _ p hp
    cases hp
  | cons a l ih =>
    intro hnd p hp f
    rw [List.nodup_cons] at hnd
    rw [List.flatMap_cons]
    rcases List.mem_cons.mp hp with rfl | hp2
    · rw [if_pos rfl]
      have hz : (l.flatMap fun b => if b = p then f b else []) = [] := by
        rw [List.flatMap_eq_nil_iff]
        intro b hb
        rw [if_neg (fun hbp => hnd.1 (by rw [← hbp]; exact hb))]
      rw [hz, List.append_nil]
    · rw [if_neg (fun hap => hnd.1 (by rw [hap]; exact hp2)), List.nil_append]
      exact ih hnd.2 hp2 f

/-- The rows of the visit-major join carrying one stored park. -/
theorem vpJoin_filter_park (s : Store) (hcodes : s.ParkCodesNodup) {p : Park}
    (hp : p ∈ s.parks) :
    (vpJoin s).filter (fun x => x.2 = p) =
      (s.visits.filter (fun v => v.park_code = p.park_code)).map (fun v => (v, p)) := by
  rw [vpJoin, List.filter_flatMap]
  have hblock : ∀ v : MonthlyVisit,
      ((s.parks.filter (fun q => q.park_code = v.park_code)).map
        (fun q => (v, q))).filter (fun x : MonthlyVisit × Park => x.2 = p) =
      if decide (v.park_code = p.park_code) then [(v, p)] else [] := by
    intro v
    rw [List.filter_map]
    by_cases h : v.park_code = p.park_code
    · rw [if_pos (by simpa using h)]
      have h1 : s.parks.filter (fun q => q.park_code = v.park_code) = [p] := by
        have h2 : (fun q : Park => decide (q.park_code = v.park_code)) =
            (fun q : Park => decide (q.park_code = p.park_code)) := by
          funext q
          rw [h]
        rw [h2]
        exact filter_code_singleton hcodes hp
      rw [h1]
      simp [Function.comp_def]
    · rw [if_neg (by simpa using h)]
      have h1 : (s.parks.filter (fun q => q.park_code = v.park_code)).filter
          ((fun x : MonthlyVisit × Park => decide (x.2 = p)) ∘ (fun q => (v, q))) = [] := by
        rw [List.filter_eq_nil_iff]
        intro q hq hqp
        simp only [Function.comp_def, decide_eq_true_eq] at hqp
        rcases List.mem_filter.mp hq with ⟨_, hqc⟩
        rw [decide_eq_true_eq] at hqc
        exact h (by rw [← hqc, hqp])
      rw [h1, List.map_nil]
  calc (s.visits.flatMap fun v =>
        ((s.parks.filter (fun q => q.park_code = v.park_code)).map
          (fun q => (v, q))).filter (fun x : MonthlyVisit × Park => x.2 = p))
      = s.visits.flatMap (fun v =>
          if decide (v.park_code = p.park_code) then [(v, p)] else []) := by
        exact congrArg _ (funext hblock)
    _ = (s.visits.filter (fun v => v.park_code = p.park_code)).map (fun v => (v, p)) :=
        flatMap_if_singleton _ _ _

/-- The rows of the park-major join carrying one stored park. -/
theorem joinPMR_filter_park (s : Store) (hcodes : s.ParkCodesNodup) {p : Park}
    (hp : p ∈ s.parks) :
    (joinPMR s).filter (fun row => row.park = p) =
      (s.visits.filter (fun v => v.park_code = p.park_code)).map
        (fun v => ⟨p, regionOf s p, v⟩) := by
  rw [joinPMR, List.filter_flatMap]
  have hblock : ∀ q : Park,
      ((s.visits.filter (fun v => v.park_code = q.park_code)).map
        (fun v => (⟨q, regionOf s q, v⟩ : PMRRow))).filter (fun row => row.park = p) =
      if q = p then (s.visits.filter (fun v => v.park_code = q.park_code)).map
        (fun v => (⟨q, regionOf s q, v⟩ : PMRRow)) else [] := by
    intro q
    by_cases h : q = p
    · rw [if_pos h, List.filter_eq_self]
      intro row hrow
      rcases List.mem_map.mp hrow with ⟨v, _, rfl⟩
      simpa using h
    · rw [if_neg h, List.filter_eq_nil_iff]
      intro row hrow hrp
      rcases List.mem_map.mp hrow with ⟨v, _, rfl⟩
      rw [decide_eq_true_eq] at hrp
      exact h hrp
  calc (s.parks.flatMap fun q =>
        ((s.visits.filter (fun v => v.park_code = q.park_code)).map
          (fun v => (⟨q, regionOf s q, v⟩ : PMRRow))).filter (fun row => row.park = p))
      = s.parks.flatMap (fun q =>
          if q = p then (s.visits.filter (fun v => v.park_code = q.park_code)).map
            (fun v => (⟨q, regionOf s q, v⟩ : PMRRow)) else []) := by
        exact congrArg _ (funext hblock)
    _ = (s.visits.filter (fun v => v.park_code = p.park_code)).map
          (fun v => ⟨p, regionOf s p, v⟩) :=
        flatMap_ite_eq_single (List.Nodup.of_map _ hcodes) hp _

/-- Filtering the visit-major join by a predicate that forces one stored
park is a filter of the visits of that park. -/
theorem vpJoin_filter_to_visits (s : Store) (hcodes : s.ParkCodesNodup) {p : Park}
    (hp : p ∈ s.parks) (P : MonthlyVisit × Park → Bool) (Q : MonthlyVisit → Bool)
    (hP : ∀ v, P (v, p) = Q v)
    (hOnly : ∀ x ∈ vpJoin s, P x → x.2 = p) :
    (vpJoin s).filter P =
      (s.visits.filter (fun v => v.park_code = p.park_code && Q v)).map
        (fun v => (v, p)) := by
  have h1 : (vpJoin s).filter P = ((vpJoin s).filter (fun x => x.2 = p)).filter P := by
    rw [List.filter_filter]
    apply List.filter_congr
    intro x hx
    rcases hPx : P x
    · simp
    · simp [hOnly x hx hPx]
  rw [h1, vpJoin_filter_park s hcodes hp, List.filter_map, List.filter_filter]
  apply congrArg
  apply List.filter_congr
  intro v _
  simp only [Function.comp_def]
  rw [hP v, Bool.and_comm]

/-- Filtering the park-major join by a predicate that forces one stored park
is a filter of the visits of that park. -/
theorem joinPMR_filter_to_visits (s : Store) (hcodes : s.ParkCodesNodup) {p : Park}
    (hp : p ∈ s.parks) (P : PMRRow → Bool) (Q : MonthlyVisit → Bool)
    (hP : ∀ v, P ⟨p, regionOf s p, v⟩ = Q v)
    (hOnly : ∀ row ∈ joinPMR s, P row → row.park = p) :
    (joinPMR s).filter P =
      (s.visits.filter (fun v => v.park_code = p.park_code && Q v)).map
        (fun v => ⟨p, regionOf s p, v⟩) := by
  have h1 : (joinPMR s).filter P = ((joinPMR s).filter (fun row => row.park = p)).filter P := by
    rw [List.filter_filter]
    apply List.filter_congr
    intro row hrow
    rcases hPr : P row
    · simp
    · simp [hOnly row hrow hPr]
  rw [h1, joinPMR_filter_park s hcodes hp, List.filter_map, List.filter_filter]
  apply congrArg
  apply List.filter_congr
  intro v _
  simp only [Function.comp_def]
  rw [hP v, Bool.and_comm]

/-- A group of the `Q5Key` aggregation (as used by Q2/Q5/Q10/Q11 modulo key
shape) over a filtered park-major join collects exactly the stored monthly
rows of one park for the year, provided the row filter forces the year and is
otherwise determined by the park. -/
theorem joinPMR_group_totals (s : Store) (hcodes : s.ParkCodesNodup)
    (G : PMRRow → Bool) (year : ℤ)
    (hyear : ∀ row, G row → row.visit.year = year)
    (hdet : ∀ p : Park, ∀ v w : MonthlyVisit, v.year = w.year →
      G ⟨p, regionOf s p, v⟩ → G ⟨p, regionOf s p, w⟩)
    {kg : Q5Key × List PMRRow}
    (hkg : kg ∈ sqlGroupBy (fun row : PMRRow =>
      ((row.park.park_code, row.park.park_name,
        row.region.map (fun r => r.region_id), row.region.map (fun r => r.region_name),
        row.visit.year) : Q5Key)) ((joinPMR s).filter G)) :
    ∃ p ∈ s.parks, kg.1.1 = p.park_code ∧
      kg.2.map (fun row => row.visit.total_visits) = parkYearTotals s year p.park_code := by
  have hne := sqlGroupBy_group_ne_nil hkg
  rcases mem_sqlGroupBy.mp hkg with ⟨_, hk2⟩
  rcases List.exists_mem_of_ne_nil _ hne with ⟨row₀, hrow₀⟩
  rw [hk2] at hrow₀
  rcases List.mem_filter.mp hrow₀ with ⟨hr0G, hr0key⟩
  rw [decide_eq_true_eq] at hr0key
  rcases List.mem_filter.mp hr0G with ⟨hr0J, hr0Gp⟩
  rcases mem_joinPMR.mp hr0J with ⟨p, hp, v₀, _, _, rfl⟩
  have hy₀ : v₀.year = year := hyear _ hr0Gp
  have hcode1 : kg.1.1 = p.park_code := by rw [← hr0key]
  refine ⟨p, hp, hcode1, ?_⟩
  have hfilters : ((joinPMR s).filter G).filter (fun r : PMRRow =>
      ((r.park.park_code, r.park.park_name,
        r.region.map (fun rg => rg.region_id), r.region.map (fun rg => rg.region_name),
        r.visit.year) : Q5Key) = kg.1) =
      (joinPMR s).filter (fun r : PMRRow =>
        decide (((r.park.park_code, r.park.park_name,
          r.region.map (fun rg => rg.region_id), r.region.map (fun rg => rg.region_name),
          r.visit.year) : Q5Key) = kg.1) && G r) :=
    List.filter_filter _ _
  have hmain := joinPMR_filter_to_visits s hcodes hp
    (fun r : PMRRow =>
      decide (((r.park.park_code, r.park.park_name,
        r.region.map (fun rg => rg.region_id), r.region.map (fun rg => rg.region_name),
        r.visit.year) : Q5Key) = kg.1) && G r)
    (fun v => decide (v.year = year)) ?_ ?_
  · rw [hk2, hfilters, hmain, List.map_map]
    rw [parkYearTotals]
    have : (fun v : MonthlyVisit =>
        decide (v.park_code = p.park_code) && decide (v.year = year)) =
        (fun v : MonthlyVisit => decide (v.park_code = p.park_code ∧ v.year = year)) := by
      funext v
      by_cases h1 : v.park_code = p.park_code <;> by_cases h2 : v.year = year <;>
        simp [h1, h2]
    rw [this]
    rfl
  · intro v
    by_cases hvy : v.year = year
    · have hkey : ((p.park_code, p.park_name,
          (regionOf s p).map (fun rg => rg.region_id),
          (regionOf s p).map (fun rg => rg.region_name), year) : Q5Key) = kg.1 := by
        rw [← hy₀]
        exact hr0key
      have hG : G ⟨p, regionOf s p, v⟩ = true := hdet p v₀ v (by rw [hy₀, hvy]) hr0Gp
      simp [hkey, hG, hvy]
    · have hkey : ¬(((p.park_code, p.park_name,
          (regionOf s p).map (fun rg => rg.region_id),
          (regionOf s p).map (fun rg => rg.region_name), v.year) : Q5Key) = kg.1) := by
        rw [← hr0key]
        intro hcon
        apply hvy
        have := congrArg (fun k : Q5Key => k.2.2.2.2) hcon
        simpa using this.trans hy₀
      simp [hkey, hvy]
  · intro row hrow hP
    rw [Bool.and_eq_true, decide_eq_true_eq] at hP
    rcases mem_joinPMR.mp hrow with ⟨q, hq, v, _, hvcode, rfl⟩
    have hqp : q.park_code = p.park_code := by
      have := congrArg (fun k : Q5Key => k.1) hP.1
      simpa [hcode1] using this
    have : q = p := park_inj hcodes hq hp hqp
    simp [this]

/-- Each group of the growth operation's annual subquery is one stored park's
rows for one boundary year: its key is the park's code paired with that year,
its mapped totals are exactly the park's stored monthly totals for the year,
and the park has at least one stored row in the year. -/
theorem vpJoin_growth_group (s : Store) (hcodes : s.ParkCodesNodup)
    (rid : Str) (start_year end_year : ℤ)
    {kg : (Str × ℤ) × List (MonthlyVisit × Park)}
    (hkg : kg ∈ sqlGroupBy (fun x : MonthlyVisit × Park => (x.1.park_code, x.1.year))
      ((vpJoin s).filter (fun x =>
        x.2.region_id = some rid ∧ (x.1.year = start_year ∨ x.1.year = end_year)))) :
    ∃ p ∈ s.parks, kg.1.1 = p.park_code ∧
      kg.2.map (fun x => x.1.total_visits) = parkYearTotals s kg.1.2 p.park_code ∧
      ∃ v ∈ s.visits, v.park_code = p.park_code ∧ v.year = kg.1.2 := by
  have hne := sqlGroupBy_group_ne_nil hkg
  rcases mem_sqlGroupBy.mp hkg with ⟨_, hk2⟩
  rcases List.exists_mem_of_ne_nil _ hne with ⟨x₀, hx₀⟩
  rw [hk2] at hx₀
  rcases List.mem_filter.mp hx₀ with ⟨hx0G, hx0key⟩
  rw [decide_eq_true_eq] at hx0key
  rcases List.mem_filter.mp hx0G with ⟨hx0J, hx0Gp⟩
  rw [decide_eq_true_eq] at hx0Gp
  rcases mem_vpJoin.mp hx0J with ⟨v₀, hv₀, p, hp, hpcode, rfl⟩
  have hvkey : v₀.park_code = kg.1.1 := congrArg Prod.fst hx0key
  have hyr : v₀.year = kg.1.2 := congrArg Prod.snd hx0key
  have hcode1 : kg.1.1 = p.park_code := by rw [← hvkey, hpcode]
  have hpreg : p.region_id = some rid := hx0Gp.1
  have hrange : v₀.year = start_year ∨ v₀.year = end_year := hx0Gp.2
  refine ⟨p, hp, hcode1, ?_, v₀, hv₀, hpcode.symm, hyr⟩
  have hfilters : (((vpJoin s).filter (fun x =>
      x.2.region_id = some rid ∧ (x.1.year = start_year ∨ x.1.year = end_year))).filter
        (fun x : MonthlyVisit × Park => (x.1.park_code, x.1.year) = kg.1)) =
      (vpJoin s).filter (fun x =>
        decide ((x.1.park_code, x.1.year) = kg.1) &&
        decide (x.2.region_id = some rid ∧ (x.1.year = start_year ∨ x.1.year = end_year))) :=
    List.filter_filter _ _
  have hmain := vpJoin_filter_to_visits s hcodes hp
    (fun x : MonthlyVisit × Park =>
      decide ((x.1.park_code, x.1.year) = kg.1) &&
      decide (x.2.region_id = some rid ∧ (x.1.year = start_year ∨ x.1.year = end_year)))
    (fun v => decide (v.park_code = p.park_code) && decide (v.year = kg.1.2)) ?_ ?_
  · rw [hk2, hfilters, hmain, List.map_map]
    rw [parkYearTotals]
    have hpr : (fun v : MonthlyVisit =>
        decide (v.park_code = p.park_code) &&
          (decide (v.park_code = p.park_code) && decide (v.year = kg.1.2))) =
        (fun v : MonthlyVisit => decide (v.park_code = p.park_code ∧ v.year = kg.1.2)) := by
      funext v
      by_cases h1 : v.park_code = p.park_code <;> by_cases h2 : v.year = kg.1.2 <;>
        simp [h1, h2]
    rw [hpr]
    rfl
  · intro v
    by_cases h1 : v.park_code = p.park_code
    · by_cases h2 : v.year = kg.1.2
      · have hkey : (v.park_code, v.year) = kg.1 := by
          rw [h1, h2, ← hcode1]
        have hrng : v.year = start_year ∨ v.year = end_year := by
          rw [h2, ← hyr]
          exact hrange
        simp [hkey, hpreg, hrng, h1, h2]
        exact ⟨by rw [← hcode1], by rw [← hyr]; exact hrange⟩
      · have hkey : ¬((v.park_code, v.year) = kg.1) :=
          fun hcon => h2 (congrArg Prod.snd hcon)
        simp [hkey, h2]
    · have hkey : ¬((v.park_code, v.year) = kg.1) := by
        intro hcon
        apply h1
        have h3 : v.park_code = kg.1.1 := congrArg Prod.fst hcon
        rw [h3, hcode1]
      simp [hkey, h1]
  · intro x hx hPx
    simp only [Bool.and_eq_true, decide_eq_true_eq] at hPx
    rcases mem_vpJoin.mp hx with ⟨v, hv, q, hq, hqcode, rfl⟩
    have hvc : v.park_code = kg.1.1 := congrArg Prod.fst hPx.1
    have hqp : q.park_code = p.park_code := by rw [hqcode, hvc, hcode1]
    exact park_inj hcodes hq hp hqp

/-- Each park_code-keyed group of a year-forcing, park-determined filter of the
visit-park join is one stored park's rows: its key is the park's code and its
mapped totals are exactly the park's stored monthly totals for the year. -/
theorem vpJoin_code_group (s : Store) (hcodes : s.ParkCodesNodup)
    (F : MonthlyVisit × Park → Bool) (year : ℤ)
    (hyear : ∀ x : MonthlyVisit × Park, F x = true → x.1.year = year)
    (hdet : ∀ p : Park, ∀ v w : MonthlyVisit, v.year = w.year →
      F (v, p) = true → F (w, p) = true)
    {kg : Str × List (MonthlyVisit × Park)}
    (hkg : kg ∈ sqlGroupBy (fun x : MonthlyVisit × Park => x.1.park_code)
      ((vpJoin s).filter F)) :
    ∃ p ∈ s.parks, kg.1 = p.park_code ∧
      kg.2.map (fun x => x.1.total_visits) = parkYearTotals s year p.park_code := by
  have hne := sqlGroupBy_group_ne_nil hkg
  rcases mem_sqlGroupBy.mp hkg with ⟨_, hk2⟩
  rcases List.exists_mem_of_ne_nil _ hne with ⟨x₀, hx₀⟩
  rw [hk2] at hx₀
  rcases List.mem_filter.mp hx₀ with ⟨hx0G, hx0key⟩
  rw [decide_eq_true_eq] at hx0key
  rcases List.mem_filter.mp hx0G with ⟨hx0J, hx0F⟩
  rcases mem_vpJoin.mp hx0J with ⟨v₀, hv₀, p, hp, hpcode, rfl⟩
  have hy₀ : v₀.year = year := hyear _ hx0F
  have hvkey : v₀.park_code = kg.1 := hx0key
  have hcode1 : kg.1 = p.park_code := by rw [← hvkey, hpcode]
  refine ⟨p, hp, hcode1, ?_⟩
  have hfilters : (((vpJoin s).filter F).filter
      (fun x : MonthlyVisit × Park => x.1.park_code = kg.1)) =
      (vpJoin s).filter (fun x => decide (x.1.park_code = kg.1) && F x) :=
    List.filter_filter _ _
  have hmain := vpJoin_filter_to_visits s hcodes hp
    (fun x : MonthlyVisit × Park => decide (x.1.park_code = kg.1) && F x)
    (fun v => decide (v.park_code = p.park_code) && decide (v.year = year)) ?_ ?_
  · rw [hk2, hfilters, hmain, List.map_map]
    rw [parkYearTotals]
    have hpr : (fun v : MonthlyVisit =>
        decide (v.park_code = p.park_code) &&
          (decide (v.park_code = p.park_code) && decide (v.year = year))) =
        (fun v : MonthlyVisit => decide (v.park_code = p.park_code ∧ v.year = year)) := by
      funext v
      by_cases h1 : v.park_code = p.park_code <;> by_cases h2 : v.year = year <;>
        simp [h1, h2]
    rw [hpr]
    rfl
  · intro v
    by_cases h1 : v.park_code = p.park_code
    · by_cases h2 : v.year = year
      · have hF : F (v, p) = true := hdet p v₀ v (by rw [hy₀, h2]) hx0F
        simp [h1, h2, hcode1, hF]
      · have hF : F (v, p) = false := by
          rcases hFv : F (v, p)
          · rfl
          · exact absurd (hyear _ hFv) h2
        simp [hF, h2]
    · simp [hcode1, h1]
  · intro x hx hPx
    simp only [Bool.and_eq_true, decide_eq_true_eq] at hPx
    rcases mem_vpJoin.mp hx with ⟨v, hv, q, hq, hqcode, rfl⟩
    have hvc : v.park_code = kg.1 := hPx.1
    have hqp : q.park_code = p.park_code := by rw [hqcode, hvc, hcode1]
    exact park_inj hcodes hq hp hqp

/-- The per-park annual totals produced by a year-forcing, park-determined
filter of the visit-park join are the annualTotal values of its deduplicated
park codes, in group order. -/
theorem vpJoin_annual_totals (s : Store) (hcodes : s.ParkCodesNodup)
    (F : MonthlyVisit × Park → Bool) (year : ℤ)
    (hyear : ∀ x : MonthlyVisit × Park, F x = true → x.1.year = year)
    (hdet : ∀ p : Park, ∀ v w : MonthlyVisit, v.year = w.year →
      F (v, p) = true → F (w, p) = true) :
    (sqlGroupBy (fun x : MonthlyVisit × Park => x.1.park_code) ((vpJoin s).filter F)).map
        (fun kg => (kg.2.map (fun x => x.1.total_visits)).sum) =
      (keysDedup (((vpJoin s).filter F).map (fun x => x.1.park_code))).map
        (fun c => annualTotal s year c) := by
  have h1 : ∀ kg ∈ sqlGroupBy (fun x : MonthlyVisit × Park => x.1.park_code)
      ((vpJoin s).filter F),
      (kg.2.map (fun x => x.1.total_visits)).sum = annualTotal s year kg.1 := by
    intro kg hkg
    rcases vpJoin_code_group s hcodes F year hyear hdet hkg with ⟨p, hp, hc, hT⟩
    rw [hT, annualTotal, hc]
  have h2 : (sqlGroupBy (fun x : MonthlyVisit × Park => x.1.park_code)
      ((vpJoin s).filter F)).map
        (fun kg => (kg.2.map (fun x => x.1.total_visits)).sum) =
      (sqlGroupBy (fun x : MonthlyVisit × Park => x.1.park_code)
        ((vpJoin s).filter F)).map (fun kg => annualTotal s year kg.1) :=
    List.map_congr_left h1
  rw [h2, sqlGroupBy, List.map_map]
  rfl

/-- The group of any row's key is a member of the grouping. -/
theorem sqlGroupBy_key_mem {κ : Type} [DecidableEq κ] {key : α → κ} {rows : List α}
    {a : α} (ha : a ∈ rows) :
    (key a, rows.filter (fun r => key r = key a)) ∈ sqlGroupBy key rows :=
  mem_sqlGroupBy.mpr ⟨List.mem_map_of_mem _ ha, rfl⟩

/-- Membership survives an optional prefix truncation. -/
theorem mem_of_mem_ite_take {α : Type} {c : Prop} [Decidable c] {n : ℕ} {l : List α} {x : α}
    (h : x ∈ if c then l.take n else l) : x ∈ l := by
  split at h
  · exact List.mem_of_mem_take h
  · exact h

unseal Rat.mul Rat.inv Rat.add Rat.sub in
/-- C2: every record returned by the variability operation carries, for its
park's stored monthly totals `T` in the year (`n = T.length` months with
data), the rounded mean `round(sum T / n)` and the rounded POPULATION
standard deviation `round(sqrt(max(sum T² / n − mean², 0)))` (divisor `n`,
not `n − 1`); and on the store holding exactly the monthly totals
[100, 200, 300] the operation returns months_with_data 3, mean 200 and
standard deviation 82. -/
theorem C2_variability_stats (s : Store) (year : ℤ)
    (region_id park_code query : Option Str) (lim : ℤ)
    (hcodes : s.ParkCodesNodup) (out : List VariabilityOut)
    (hout : park_visit_variability s year region_id park_code query lim = .ok out) :
    (∀ r ∈ out,
      parkYearTotals s year r.park_code ≠ [] ∧
      r.months_with_data = ((parkYearTotals s year r.park_code).length : ℤ) ∧
      r.avg_monthly_visits = pyRound (((parkYearTotals s year r.park_code).sum : ℚ) /
        ((parkYearTotals s year r.park_code).length : ℚ)) ∧
      r.std_dev_monthly_visits = pyRoundSqrt (max
        (((((parkYearTotals s year r.park_code).map (fun t => t * t)).sum : ℤ) : ℚ) /
            ((parkYearTotals s year r.park_code).length : ℚ) -
          (((parkYearTotals s year r.park_code).sum : ℚ) /
            ((parkYearTotals s year r.park_code).length : ℚ)) *
          (((parkYearTotals s year r.park_code).sum : ℚ) /
            ((parkYearTotals s year r.park_code).length : ℚ))) 0)) ∧
    park_visit_variability sampleStore 2024 none none none 10 = .ok [sampleVarOut] := by
  constructor
  · intro r hr
    rcases region_id with _ | rid <;> rcases park_code with _ | pc <;>
      rcases query with _ | q <;>
    · simp only [park_visit_variability, Option.map_none', Option.map_some',
        List.filter_filter] at hout
      split at hout
      · exact absurd hout (by simp)
      · rw [Except.ok.injEq] at hout
        subst hout
        replace hr := mem_of_mem_ite_take hr
        rcases List.mem_map.mp (mem_sortByDesc.mp hr) with ⟨kg, hkg, rfl⟩
        have hgrp := joinPMR_group_totals s hcodes _ year
          (by
            intro row hG
            simp only [Bool.and_eq_true, decide_eq_true_eq] at hG
            tauto)
          (by
            intro p v w hvw hG
            dsimp only at hG ⊢
            rw [← hvw]
            exact hG)
          hkg
        rcases hgrp with ⟨p, hp, hcode, hT⟩
        have hne := sqlGroupBy_group_ne_nil hkg
        have hlen : kg.2.length = (parkYearTotals s year p.park_code).length := by
          rw [← hT, List.length_map]
        have hsum : (kg.2.map (fun row => row.visit.total_visits)).sum =
            (parkYearTotals s year p.park_code).sum := by rw [hT]
        have hsum2 : (kg.2.map (fun row =>
            row.visit.total_visits * row.visit.total_visits)).sum =
            ((parkYearTotals s year p.park_code).map (fun t => t * t)).sum := by
          rw [← hT, List.map_map]
          rfl
        refine ⟨?_, ?_, ?_, ?_⟩
        · show parkYearTotals s year kg.1.1 ≠ []
          rw [hcode]
          intro hnil
          apply hne
          rw [← List.length_eq_zero]
          rw [hlen, hnil]
          rfl
        · show ((kg.2.length : ℤ)) = _
          rw [hcode]
          exact_mod_cast congrArg (fun n : ℕ => (n : ℤ)) hlen
        · show pyRound ((((kg.2.map (fun row => row.visit.total_visits)).sum : ℤ) : ℚ) /
              ((kg.2.length : ℤ) : ℚ)) = _
          rw [hcode]
          apply congrArg
          rw [hsum, hlen]
          push_cast
          rfl
        · show pyRoundSqrt (max
              ((((kg.2.map (fun row =>
                  row.visit.total_visits * row.visit.total_visits)).sum : ℤ) : ℚ) /
                  ((kg.2.length : ℤ) : ℚ) -
                ((((kg.2.map (fun row => row.visit.total_visits)).sum : ℤ) : ℚ) /
                    ((kg.2.length : ℤ) : ℚ)) *
                ((((kg.2.map (fun row => row.visit.total_visits)).sum : ℤ) : ℚ) /
                    ((kg.2.length : ℤ) : ℚ))) 0) = _
          rw [hcode]
          apply congrArg
          rw [hsum, hsum2, hlen]
          push_cast
          rfl
  · decide

unseal Rat.mul Rat.inv Rat.add Rat.sub in
/-- Witness for C2 on the sample store (totals 100, 200, 300). -/
theorem C2_variability_stats_witness :
    (∀ r ∈ [sampleVarOut],
      parkYearTotals sampleStore 2024 r.park_code ≠ [] ∧
      r.months_with_data = ((parkYearTotals sampleStore 2024 r.park_code).length : ℤ) ∧
      r.avg_monthly_visits = pyRound (((parkYearTotals sampleStore 2024 r.park_code).sum : ℚ) /
        ((parkYearTotals sampleStore 2024 r.park_code).length : ℚ)) ∧
      r.std_dev_monthly_visits = pyRoundSqrt (max
        (((((parkYearTotals sampleStore 2024 r.park_code).map (fun t => t * t)).sum : ℤ) : ℚ) /
            ((parkYearTotals sampleStore 2024 r.park_code).length : ℚ) -
          (((parkYearTotals sampleStore 2024 r.park_code).sum : ℚ) /
            ((parkYearTotals sampleStore 2024 r.park_code).length : ℚ)) *
          (((parkYearTotals sampleStore 2024 r.park_code).sum : ℚ) /
            ((parkYearTotals sampleStore 2024 r.park_code).length : ℚ))) 0)) ∧
    park_visit_variability sampleStore 2024 none none none 10 = .ok [sampleVarOut] :=
  C2_variability_stats sampleStore 2024 none none none 10 (by unfold Store.ParkCodesNodup; decide)
    [sampleVarOut] (by decide)

/-- C4: whenever the growth operation succeeds on a store with unique park
codes, the returned list is ordered descending by growth_percent; each record's
growth_percent is round((end_total − start_total) × 100 / start_total) except
that it is defined as 0 when start_total = 0 (never an error, never infinite);
its start and end totals are the park's annual totals in the boundary years;
the park has stored rows in BOTH boundary years (inner-join semantics); and on
the store with annual totals 0 (2020) and 500 (2021) the operation returns the
single record with growth_percent 0. -/
theorem C4_growth_formula_order_inner_join (s : Store) (region_id : Str)
    (start_year end_year : ℤ) (hcodes : s.ParkCodesNodup) (out : List GrowthOut)
    (hout : growth_by_region_over_time s region_id start_year end_year = .ok out) :
    out.Pairwise (fun a b => b.growth_percent ≤ a.growth_percent) ∧
    (∀ g ∈ out,
      g.growth_percent = (if g.start_total = 0 then 0
        else pyRound ((((g.end_total - g.start_total : ℤ) : ℚ) * 100) / (g.start_total : ℚ))) ∧
      g.start_total = annualTotal s start_year g.park_code ∧
      g.end_total = annualTotal s end_year g.park_code ∧
      (∃ v ∈ s.visits, v.park_code = g.park_code ∧ v.year = start_year) ∧
      (∃ v ∈ s.visits, v.park_code = g.park_code ∧ v.year = end_year)) ∧
    growth_by_region_over_time growthStore ("im".toList) 2020 2021 = .ok [growthOutRec] := by
  by_cases hlt : start_year ≥ end_year
  · simp only [growth_by_region_over_time] at hout
    rw [if_pos hlt] at hout
    exact Except.noConfusion hout
  · simp only [growth_by_region_over_time] at hout
    rw [if_neg hlt] at hout
    split at hout
    · exact Except.noConfusion hout
    · rw [Except.ok.injEq] at hout
      subst hout
      refine ⟨sortByDesc_pairwise _ _, ?_, by decide⟩
      intro g hg
      rw [mem_sortByDesc] at hg
      rcases List.mem_map.mp hg with ⟨x, hx1, rfl⟩
      rcases List.mem_filter.mp hx1 with ⟨hxrows, _⟩
      rcases List.mem_flatMap.mp hxrows with ⟨p, hp, hx2⟩
      rcases List.mem_flatMap.mp hx2 with ⟨r, hr, hx3⟩
      rcases List.mem_flatMap.mp hx3 with ⟨sa, hsa, hx4⟩
      rcases List.mem_map.mp hx4 with ⟨ea, hea, rfl⟩
      rcases List.mem_filter.mp hsa with ⟨hsa1, hsa2⟩
      simp only [decide_eq_true_eq] at hsa2
      rcases List.mem_filter.mp hea with ⟨hea1, hea2⟩
      simp only [decide_eq_true_eq] at hea2
      rcases List.mem_map.mp hsa1 with ⟨kgs, hkgs, rfl⟩
      rcases List.mem_map.mp hea1 with ⟨kge, hkge, rfl⟩
      have hsac : kgs.1.1 = p.park_code := hsa2.1
      have hsay : kgs.1.2 = start_year := hsa2.2
      have heac : kge.1.1 = p.park_code := hea2.1
      have heay : kge.1.2 = end_year := hea2.2
      rcases vpJoin_growth_group s hcodes (upper region_id) start_year end_year hkgs
        with ⟨p₁, hp₁, hc₁, hl₁, v₁, hv₁, hvc₁, hvy₁⟩
      rcases vpJoin_growth_group s hcodes (upper region_id) start_year end_year hkge
        with ⟨p₂, hp₂, hc₂, hl₂, v₂, hv₂, hvc₂, hvy₂⟩
      have hpe₁ : p₁ = p := park_inj hcodes hp₁ hp (by rw [← hc₁]; exact hsac)
      have hpe₂ : p₂ = p := park_inj hcodes hp₂ hp (by rw [← hc₂]; exact heac)
      refine ⟨rfl, ?_, ?_, ⟨v₁, hv₁, ?_, ?_⟩, ⟨v₂, hv₂, ?_, ?_⟩⟩
      · show (kgs.2.map (fun x => x.1.total_visits)).sum =
          annualTotal s start_year p.park_code
        rw [hl₁, hpe₁, hsay, annualTotal]
      · show (kge.2.map (fun x => x.1.total_visits)).sum =
          annualTotal s end_year p.park_code
        rw [hl₂, hpe₂, heay, annualTotal]
      · show v₁.park_code = p.park_code
        rw [hvc₁, hpe₁]
      · show v₁.year = start_year
        rw [hvy₁, hsay]
      · show v₂.park_code = p.park_code
        rw [hvc₂, hpe₂]
      · show v₂.year = end_year
        rw [hvy₂, heay]

/-- Witness for C4 on the growth store (annual totals 0 in 2020 and 500 in
2021, the region filter given in lowercase). -/
theorem C4_growth_formula_order_inner_join_witness :
    ([growthOutRec].Pairwise (fun a b => b.growth_percent ≤ a.growth_percent)) ∧
    (∀ g ∈ [growthOutRec],
      g.growth_percent = (if g.start_total = 0 then 0
        else pyRound ((((g.end_total - g.start_total : ℤ) : ℚ) * 100) / (g.start_total : ℚ))) ∧
      g.start_total = annualTotal growthStore 2020 g.park_code ∧
      g.end_total = annualTotal growthStore 2021 g.park_code ∧
      (∃ v ∈ growthStore.visits, v.park_code = g.park_code ∧ v.year = 2020) ∧
      (∃ v ∈ growthStore.visits, v.park_code = g.park_code ∧ v.year = 2021)) ∧
    growth_by_region_over_time growthStore ("im".toList) 2020 2021 = .ok [growthOutRec] :=
  C4_growth_formula_order_inner_join growthStore ("im".toList) 2020 2021
    (by unfold Store.ParkCodesNodup; decide) [growthOutRec] (by decide)

unseal Rat.mul Rat.inv Rat.add Rat.sub in
/-- C3 counterexample: on the store with 2024 annual totals [101, 102] the
unweighted mean is 101.5 and the 102-total park strictly exceeds it, yet the
operation returns no park, because the code compares each total against the
mean rounded half-to-even to 102. -/
theorem C3_counterexample :
    parks_above_system_average c3Store 2024 none none none = .ok [] ∧
    annualTotal c3Store 2024 ("BBBB".toList) = 102 ∧
    ((annualTotal c3Store 2024 ("BBBB".toList) : ℚ) >
      ((annualTotal c3Store 2024 ("AAAA".toList) : ℚ) +
        (annualTotal c3Store 2024 ("BBBB".toList) : ℚ)) / 2) ∧
    pyRound (((annualTotal c3Store 2024 ("AAAA".toList) : ℚ) +
        (annualTotal c3Store 2024 ("BBBB".toList) : ℚ)) / 2) = 102 :=
  ⟨by decide, by decide, by decide, by decide⟩

set_option maxHeartbeats 2000000 in
unseal Rat.mul Rat.inv Rat.add Rat.sub in
/-- C3 (amended): the scope of the above-average operation is the set of parks
with a stored monthly row in the year (inside the region when that filter is
given); the system average is the unweighted mean of their annual totals
rounded half to even; every returned record's park strictly exceeds that
ROUNDED average, carries it together with the difference and
percent_above_average = round((total − avg)/avg × 100) (0 when avg ≤ 0); every
scope park whose region resolves through the region table and whose annual
total strictly exceeds the rounded average is returned; and on the store with
annual totals [100, 200, 300] the average is 200 and only the 300-total park
is returned, 50 percent above. -/
theorem C3_above_rounded_average (s : Store) (year : ℤ) (region_id : Option Str)
    (hcodes : s.ParkCodesNodup) (out : List ParkAboveAverageOut)
    (hout : parks_above_system_average s year region_id none none = .ok out) :
    ∃ avg : ℤ, ∃ codes : List Str,
      codes.Nodup ∧
      (∀ c, c ∈ codes ↔ ∃ p ∈ s.parks, p.park_code = c ∧
        (∀ rid, region_id = some rid → p.region_id = some (upper rid)) ∧
        ∃ v ∈ s.visits, v.park_code = c ∧ v.year = year) ∧
      avg = pyRound (((codes.map (fun c => annualTotal s year c)).sum : ℚ) /
        (codes.length : ℚ)) ∧
      (∀ g ∈ out,
        g.system_average_visits = avg ∧
        g.annual_total_visits = annualTotal s year g.park_code ∧
        g.annual_total_visits > avg ∧
        g.difference_from_average = g.annual_total_visits - avg ∧
        g.percent_above_average = (if avg > 0 then
          pyRound ((((g.annual_total_visits - avg : ℤ) : ℚ) / (avg : ℚ)) * 100)
          else 0)) ∧
      (∀ p ∈ s.parks, ∀ v ∈ s.visits, v.park_code = p.park_code → v.year = year →
        (∀ rid, region_id = some rid →
          ∃ rg ∈ s.regions, p.region_id = some rg.region_id ∧ rg.region_id = upper rid) →
        annualTotal s year p.park_code > avg →
        ∃ g ∈ out, g.park_code = p.park_code) ∧
      parks_above_system_average c3Store3 2024 none none none = .ok [c3AboveOut] := by
  rcases region_id with _ | rid
  · simp only [parks_above_system_average, Option.map_none'] at hout
    split at hout
    · exact Except.noConfusion hout
    · rw [Except.ok.injEq] at hout
      have hAT := vpJoin_annual_totals s hcodes
        (fun x => decide (x.1.year = year)) year
        (fun x hF => of_decide_eq_true hF)
        (fun p v w hvw hF => by
          dsimp only at hF ⊢
          rw [← hvw]
          exact hF)
      subst hout
      refine ⟨pyRound
          ((((sqlGroupBy (fun x : MonthlyVisit × Park => x.1.park_code)
              ((vpJoin s).filter (fun x => decide (x.1.year = year)))).map
              (fun kg => (kg.2.map (fun x => x.1.total_visits)).sum) : List ℤ).sum : ℚ) /
            (((sqlGroupBy (fun x : MonthlyVisit × Park => x.1.park_code)
              ((vpJoin s).filter (fun x => decide (x.1.year = year)))).map
              (fun kg => (kg.2.map (fun x => x.1.total_visits)).sum) : List ℤ).length : ℚ)),
        keysDedup (((vpJoin s).filter (fun x => decide (x.1.year = year))).map
          (fun x => x.1.park_code)),
        keysDedup_nodup _, ?_, ?_, ?_, ?_, by decide⟩
      · intro c
        constructor
        · intro hc
          rcases List.mem_map.mp (mem_keysDedup.mp hc) with ⟨x, hxlst, hxc⟩
          rcases List.mem_filter.mp hxlst with ⟨hxJ, hxY⟩
          rw [decide_eq_true_eq] at hxY
          rcases mem_vpJoin.mp hxJ with ⟨v, hv, p, hp, hpc, rfl⟩
          refine ⟨p, hp, ?_, fun rid h => Option.noConfusion h, v, hv, hxc, hxY⟩
          rw [hpc]
          exact hxc
        · rintro ⟨p, hp, hpc, -, v, hv, hvc, hvy⟩
          apply mem_keysDedup.mpr
          refine List.mem_map.mpr ⟨(v, p), List.mem_filter.mpr
            ⟨mem_vpJoin.mpr ⟨v, hv, p, hp, ?_, rfl⟩, ?_⟩, hvc⟩
          · rw [hpc, hvc]
          · exact decide_eq_true hvy
      · rw [hAT, List.length_map]
      · intro g hg
        rcases List.mem_map.mp hg with ⟨kt, hkt, rfl⟩
        rw [mem_sortByDesc] at hkt
        rcases List.mem_filter.mp hkt with ⟨hkt1, hktgt⟩
        rw [decide_eq_true_eq] at hktgt
        rcases List.mem_map.mp hkt1 with ⟨kg, hkg, rfl⟩
        have hgrp := joinPMR_group_totals s hcodes _ year
          (fun row hG => of_decide_eq_true hG)
          (fun p v w hvw hG => by
            dsimp only at hG ⊢
            rw [← hvw]
            exact hG)
          hkg
        rcases hgrp with ⟨p, hp, hcode, hT⟩
        refine ⟨rfl, ?_, hktgt, rfl, rfl⟩
        show (kg.2.map (fun row => row.visit.total_visits)).sum =
          annualTotal s year kg.1.1
        rw [hT, annualTotal, hcode]
      · intro p hp v hv hvpc hvy _ htot
        have hR : (⟨p, regionOf s p, v⟩ : PMRRow) ∈
            (joinPMR s).filter (fun row => decide (row.visit.year = year)) :=
          List.mem_filter.mpr ⟨mem_joinPMR.mpr ⟨p, hp, v, hv, hvpc, rfl⟩,
            decide_eq_true hvy⟩
        have hkg : ((((p.park_code, p.park_name,
            (regionOf s p).map (fun r => r.region_id),
            (regionOf s p).map (fun r => r.region_name), v.year) : Q5Key)),
            ((joinPMR s).filter (fun row => decide (row.visit.year = year))).filter
              (fun r : PMRRow => ((r.park.park_code, r.park.park_name,
                r.region.map (fun rg => rg.region_id),
                r.region.map (fun rg => rg.region_name), r.visit.year) : Q5Key) =
                ((p.park_code, p.park_name,
                  (regionOf s p).map (fun r => r.region_id),
                  (regionOf s p).map (fun r => r.region_name), v.year) : Q5Key))) ∈
            sqlGroupBy (fun row : PMRRow =>
              ((row.park.park_code, row.park.park_name,
                row.region.map (fun r => r.region_id),
                row.region.map (fun r => r.region_name), row.visit.year) : Q5Key))
              ((joinPMR s).filter (fun row => decide (row.visit.year = year))) :=
          sqlGroupBy_key_mem hR
        have hgrp := joinPMR_group_totals s hcodes _ year
          (fun row hG => of_decide_eq_true hG)
          (fun p' v' w' hvw hG => by
            dsimp only at hG ⊢
            rw [← hvw]
            exact hG)
          hkg
        rcases hgrp with ⟨p', hp', hc', hT'⟩
        have hcpp : p.park_code = p'.park_code := hc'
        have hpe : p' = p := park_inj hcodes hp' hp hcpp.symm
        have hTa : ((((joinPMR s).filter (fun row => decide (row.visit.year = year))).filter
            (fun r : PMRRow => ((r.park.park_code, r.park.park_name,
              r.region.map (fun rg => rg.region_id),
              r.region.map (fun rg => rg.region_name), r.visit.year) : Q5Key) =
              ((p.park_code, p.park_name,
                (regionOf s p).map (fun r => r.region_id),
                (regionOf s p).map (fun r => r.region_name), v.year) : Q5Key))).map
            (fun row => row.visit.total_visits)).sum =
            annualTotal s year p.park_code := by
          rw [hT', hpe, annualTotal]
        refine ⟨_, List.mem_map_of_mem _ (mem_sortByDesc.mpr (List.mem_filter.mpr
          ⟨List.mem_map_of_mem _ hkg, ?_⟩)), rfl⟩
        apply decide_eq_true
        show (_ : ℤ) > _
        rw [hTa]
        exact htot
  · simp only [parks_above_system_average, Option.map_some', List.filter_filter] at hout
    split at hout
    · exact Except.noConfusion hout
    · rw [Except.ok.injEq] at hout
      have hAT := vpJoin_annual_totals s hcodes
        (fun x => decide (x.2.region_id = some (upper rid)) && decide (x.1.year = year)) year
        (fun x hF => by
          simp only [Bool.and_eq_true, decide_eq_true_eq] at hF
          exact hF.2)
        (fun p v w hvw hF => by
          dsimp only at hF ⊢
          rw [← hvw]
          exact hF)
      subst hout
      refine ⟨pyRound
          ((((sqlGroupBy (fun x : MonthlyVisit × Park => x.1.park_code)
              ((vpJoin s).filter (fun x => decide (x.2.region_id = some (upper rid)) &&
                decide (x.1.year = year)))).map
              (fun kg => (kg.2.map (fun x => x.1.total_visits)).sum) : List ℤ).sum : ℚ) /
            (((sqlGroupBy (fun x : MonthlyVisit × Park => x.1.park_code)
              ((vpJoin s).filter (fun x => decide (x.2.region_id = some (upper rid)) &&
                decide (x.1.year = year)))).map
              (fun kg => (kg.2.map (fun x => x.1.total_visits)).sum) : List ℤ).length : ℚ)),
        keysDedup (((vpJoin s).filter (fun x => decide (x.2.region_id = some (upper rid)) &&
            decide (x.1.year = year))).map (fun x => x.1.park_code)),
        keysDedup_nodup _, ?_, ?_, ?_, ?_, by decide⟩
      · intro c
        constructor
        · intro hc
          rcases List.mem_map.mp (mem_keysDedup.mp hc) with ⟨x, hxlst, hxc⟩
          rcases List.mem_filter.mp hxlst with ⟨hxJ, hxF⟩
          simp only [Bool.and_eq_true, decide_eq_true_eq] at hxF
          rcases mem_vpJoin.mp hxJ with ⟨v, hv, p, hp, hpc, rfl⟩
          refine ⟨p, hp, ?_, ?_, v, hv, hxc, hxF.2⟩
          · rw [hpc]
            exact hxc
          · intro rid' h
            injection h with h'
            rw [← h']
            exact hxF.1
        · rintro ⟨p, hp, hpc, hreg, v, hv, hvc, hvy⟩
          apply mem_keysDedup.mpr
          refine List.mem_map.mpr ⟨(v, p), List.mem_filter.mpr
            ⟨mem_vpJoin.mpr ⟨v, hv, p, hp, ?_, rfl⟩, ?_⟩, hvc⟩
          · rw [hpc, hvc]
          · simp only [Bool.and_eq_true, decide_eq_true_eq]
            exact ⟨hreg rid rfl, hvy⟩
      · rw [hAT, List.length_map]
      · intro g hg
        rcases List.mem_map.mp hg with ⟨kt, hkt, rfl⟩
        rw [mem_sortByDesc] at hkt
        rcases List.mem_filter.mp hkt with ⟨hkt1, hktgt⟩
        rw [decide_eq_true_eq] at hktgt
        rcases List.mem_map.mp hkt1 with ⟨kg, hkg, rfl⟩
        have hgrp := joinPMR_group_totals s hcodes _ year
          (fun row hG => by
            simp only [Bool.and_eq_true, decide_eq_true_eq] at hG
            exact hG.2)
          (fun p v w hvw hG => by
            dsimp only at hG ⊢
            rw [← hvw]
            exact hG)
          hkg
        rcases hgrp with ⟨p, hp, hcode, hT⟩
        refine ⟨rfl, ?_, hktgt, rfl, rfl⟩
        show (kg.2.map (fun row => row.visit.total_visits)).sum =
          annualTotal s year kg.1.1
        rw [hT, annualTotal, hcode]
      · intro p hp v hv hvpc hvy hregFK htot
        rcases hregFK rid rfl with ⟨rg, hrg, hprg, hrgid⟩
        rcases hfind : regionOf s p with _ | r₀
        · rw [regionOf] at hfind
          exact absurd (decide_eq_true hprg) (List.find?_eq_none.mp hfind rg hrg)
        · have hro : regionOf s p = some r₀ := hfind
          rw [regionOf] at hfind
          have hfound := List.find?_some hfind
          have hr₀ : p.region_id = some r₀.region_id := of_decide_eq_true hfound
          have hr₀id : r₀.region_id = upper rid := by
            have h1 : some rg.region_id = some r₀.region_id := by
              rw [← hprg]
              exact hr₀
            injection h1 with h2
            rw [← h2, hrgid]
          have hR : (⟨p, regionOf s p, v⟩ : PMRRow) ∈
              (joinPMR s).filter (fun row =>
                (row.region.any (fun r => decide (r.region_id = upper rid))) &&
                decide (row.visit.year = year)) := by
            refine List.mem_filter.mpr ⟨mem_joinPMR.mpr ⟨p, hp, v, hv, hvpc, rfl⟩, ?_⟩
            simp only [Bool.and_eq_true]
            refine ⟨?_, decide_eq_true hvy⟩
            show (regionOf s p).any (fun r => decide (r.region_id = upper rid)) = true
            rw [hro]
            exact decide_eq_true hr₀id
          have hkg : ((((p.park_code, p.park_name,
              (regionOf s p).map (fun r => r.region_id),
              (regionOf s p).map (fun r => r.region_name), v.year) : Q5Key)),
              ((joinPMR s).filter (fun row =>
                (row.region.any (fun r => decide (r.region_id = upper rid))) &&
                decide (row.visit.year = year))).filter
                (fun r : PMRRow => ((r.park.park_code, r.park.park_name,
                  r.region.map (fun rg => rg.region_id),
                  r.region.map (fun rg => rg.region_name), r.visit.year) : Q5Key) =
                  ((p.park_code, p.park_name,
                    (regionOf s p).map (fun r => r.region_id),
                    (regionOf s p).map (fun r => r.region_name), v.year) : Q5Key))) ∈
              sqlGroupBy (fun row : PMRRow =>
                ((row.park.park_code, row.park.park_name,
                  row.region.map (fun r => r.region_id),
                  row.region.map (fun r => r.region_name), row.visit.year) : Q5Key))
                ((joinPMR s).filter (fun row =>
                  (row.region.any (fun r => decide (r.region_id = upper rid))) &&
                  decide (row.visit.year = year))) :=
            sqlGroupBy_key_mem hR
          have hgrp := joinPMR_group_totals s hcodes _ year
            (fun row hG => by
              simp only [Bool.and_eq_true, decide_eq_true_eq] at hG
              exact hG.2)
            (fun p' v' w' hvw hG => by
              dsimp only at hG ⊢
              rw [← hvw]
              exact hG)
            hkg
          rcases hgrp with ⟨p', hp', hc', hT'⟩
          have hcpp : p.park_code = p'.park_code := hc'
          have hpe : p' = p := park_inj hcodes hp' hp hcpp.symm
          have hTa : ((((joinPMR s).filter (fun row =>
              (row.region.any (fun r => decide (r.region_id = upper rid))) &&
              decide (row.visit.year = year))).filter
              (fun r : PMRRow => ((r.park.park_code, r.park.park_name,
                r.region.map (fun rg => rg.region_id),
                r.region.map (fun rg => rg.region_name), r.visit.year) : Q5Key) =
                ((p.park_code, p.park_name,
                  (regionOf s p).map (fun r => r.region_id),
                  (regionOf s p).map (fun r => r.region_name), v.year) : Q5Key))).map
              (fun row => row.visit.total_visits)).sum =
              annualTotal s year p.park_code := by
            rw [hT', hpe, annualTotal]
          refine ⟨_, List.mem_map_of_mem _ (mem_sortByDesc.mpr (List.mem_filter.mpr
            ⟨List.mem_map_of_mem _ hkg, ?_⟩)), rfl⟩
          apply decide_eq_true
          show (_ : ℤ) > _
          rw [hTa]
          exact htot

unseal Rat.mul Rat.inv Rat.add Rat.sub in
/-- Witness for the amended C3 on the store with annual totals [100, 200, 300]:
the rounded average is 200 and only the 300-total park is returned, 50 percent
above. -/
theorem C3_above_rounded_average_witness :
    ∃ avg : ℤ, ∃ codes : List Str,
      codes.Nodup ∧
      (∀ c, c ∈ codes ↔ ∃ p ∈ c3Store3.parks, p.park_code = c ∧
        (∀ rid, (none : Option Str) = some rid → p.region_id = some (upper rid)) ∧
        ∃ v ∈ c3Store3.visits, v.park_code = c ∧ v.year = 2024) ∧
      avg = pyRound (((codes.map (fun c => annualTotal c3Store3 2024 c)).sum : ℚ) /
        (codes.length : ℚ)) ∧
      (∀ g ∈ [c3AboveOut],
        g.system_average_visits = avg ∧
        g.annual_total_visits = annualTotal c3Store3 2024 g.park_code ∧
        g.annual_total_visits > avg ∧
        g.difference_from_average = g.annual_total_visits - avg ∧
        g.percent_above_average = (if avg > 0 then
          pyRound ((((g.annual_total_visits - avg : ℤ) : ℚ) / (avg : ℚ)) * 100)
          else 0)) ∧
      (∀ p ∈ c3Store3.parks, ∀ v ∈ c3Store3.visits,
        v.park_code = p.park_code → v.year = 2024 →
        (∀ rid, (none : Option Str) = some rid →
          ∃ rg ∈ c3Store3.regions, p.region_id = some rg.region_id ∧
            rg.region_id = upper rid) →
        annualTotal c3Store3 2024 p.park_code > avg →
        ∃ g ∈ [c3AboveOut], g.park_code = p.park_code) ∧
      parks_above_system_average c3Store3 2024 none none none = .ok [c3AboveOut] :=
  C3_above_rounded_average c3Store3 2024 none (by unfold Store.ParkCodesNodup; decide)
    [c3AboveOut] (by decide)

end NPS
